import Mathlib

/-!
# SOCKS5 server (`server.go`): negotiation, request gating, task pipelines, UDP association

A shallow embedding of `server.go`.  Octets are natural numbers, `[]byte` and the Go strings
that are compared with wire octets are `List Nat`, textual keys are `String`.  Go functions that
mutate their receiver return the new state next to their result; a Go `error` result is an
`Option Error` (`none` is `nil`).

Frames, constants and collaborators that `server.go` uses but does not declare are modelled
from the specification (§3, §4.1, §4.2, §6) or taken as parameters; each such definition says so.
-/

namespace Socks5

/-! ## Constants -/

/-- Modelled from the spec: the protocol version octet `0x05` (§6); the constant `Ver` is
declared outside `server.go`. -/
def Ver : Nat := 0x05

/-- Modelled from the spec: method octet `0x00` NoAuth (§3); declared outside `server.go`. -/
def MethodNone : Nat := 0x00

/-- Modelled from the spec: method octet `0x02` UserPass (§3); declared outside `server.go`. -/
def MethodUsernamePassword : Nat := 0x02

/-- Modelled from the spec: method octet `0xFF` NoneAcceptable (§3); declared outside
`server.go`. -/
def MethodUnsupportAll : Nat := 0xFF

/-- Modelled from the spec: sub-negotiation version `0x01` (§6); declared outside `server.go`. -/
def UserPassVer : Nat := 0x01

/-- Modelled from the spec: UserPass status `0x00` success (§6); declared outside `server.go`. -/
def UserPassStatusSuccess : Nat := 0x00

/-- Modelled from the spec: UserPass failure status, on the wire `01 01` (§8 S3); declared
outside `server.go`. -/
def UserPassStatusFailure : Nat := 0x01

/-- Modelled from the spec: command octet `0x01` CONNECT (§3); declared outside `server.go`. -/
def CmdConnect : Nat := 0x01

/-- Modelled from the spec: command octet `0x02` BIND (§3); declared outside `server.go`. -/
def CmdBind : Nat := 0x02

/-- Modelled from the spec: command octet `0x03` UDP ASSOCIATE (§3); declared outside
`server.go`. -/
def CmdUDP : Nat := 0x03

/-- Modelled from the spec: address type `0x01` IPv4 (§3); declared outside `server.go`. -/
def ATYPIPv4 : Nat := 0x01

/-- Modelled from the spec: address type `0x03` Domain (§3); declared outside `server.go`. -/
def ATYPDomain : Nat := 0x03

/-- Modelled from the spec: address type `0x04` IPv6 (§3); declared outside `server.go`. -/
def ATYPIPv6 : Nat := 0x04

/-- Modelled from the spec: reply code `0x00` Succeeded (§3); declared outside `server.go`. -/
def RepSuccess : Nat := 0x00

/-- Modelled from the spec: reply code `0x07` CommandNotSupported (§3); declared outside
`server.go`. -/
def RepCommandNotSupported : Nat := 0x07

/-- The sixteen zero octets of Go's `net.IPv6zero`. -/
def IPv6zero : List Nat := List.replicate 16 0

/-- Go's `time.Hour`, a `time.Duration` in nanoseconds. -/
def Hour : Nat := 3600 * 1000000000

/-! ## Errors -/

/-- Go `error` values that can leave the functions of `server.go`.  The first six are the
codec's ErrorKinds of spec §4.1; `WriteFailed` is the error of a failed `Write`;
`ErrUnsupportCmd` and `ErrUserPassAuth` are the two sentinels declared in `server.go`;
`Errorf` is an error built by `fmt.Errorf` with its text; `Dial` is the error `DialUDP`
returned, with its text; `Other` is an error of a collaborator that is passed through.
`Panic` is not an error value: it stands for a run-time panic, with its text; a call that gives
it did not return, and in the goroutines of `ListenAndServe`, which have no `recover`, the
panic ends the process. -/
inductive Error where
  | ShortRead
  | BadVersion
  | BadSubVersion
  | BadReserved
  | UnknownATYP
  | TruncatedAddress
  | WriteFailed
  | ErrUnsupportCmd
  | ErrUserPassAuth
  | Errorf (text : String)
  | Dial (text : String)
  | Other (text : String)
  | Panic (text : String)
  deriving DecidableEq, Repr

/-! ## The client connection (`io.ReadWriter`) -/

/-- A client TCP connection seen from the server: `inp` is what the client sends and the
server has not read yet, `out` the frames written so far (oldest first, one entry per `Write`
call), `wleft` the number of `Write` calls that will still succeed, `closed` whether `Close`
was called. -/
structure Conn where
  inp : List Nat
  out : List (List Nat)
  wleft : Nat
  closed : Bool
  deriving DecidableEq, Repr

/-- One `Write` call on the connection: fails once the write budget is used up. -/
def Conn.Write (c : Conn) (b : List Nat) : Option Error × Conn :=
  match c.wleft with
  | 0 => (some Error.WriteFailed, c)
  | n + 1 => (none, { c with out := c.out ++ [b], wleft := n })

/-- The `Close` method of the connection. -/
def Conn.Close (c : Conn) : Conn := { c with closed := true }

/-! ## Frames (modelled from the spec's wire format) -/

/-- Modelled from the spec: NegotiationRequest `{ version=0x05, methods }` (§3); the type is
declared outside `server.go`. -/
structure NegotiationRequest where
  Ver : Nat
  Methods : List Nat
  deriving DecidableEq, Repr

/-- Modelled from the spec: NegotiationReply `{ version=0x05, chosen_method }` (§3). -/
structure NegotiationReply where
  Ver : Nat
  Method : Nat
  deriving DecidableEq, Repr

/-- Modelled from the spec: UserPassRequest `{ subver=0x01, uname, passwd }` (§3). -/
structure UserPassNegotiationRequest where
  Ver : Nat
  Uname : List Nat
  Passwd : List Nat
  deriving DecidableEq, Repr

/-- Modelled from the spec: UserPassReply `{ subver=0x01, status }` (§3). -/
structure UserPassNegotiationReply where
  Ver : Nat
  Status : Nat
  deriving DecidableEq, Repr

/-- Modelled from the spec: Request `{ version, cmd, rsv, atyp, dst_addr, dst_port }` (§3);
for ATYP=Domain the length octet is part of `DstAddr` (§4.1). -/
structure Request where
  Ver : Nat
  Cmd : Nat
  Rsv : Nat
  Atyp : Nat
  DstAddr : List Nat
  DstPort : List Nat
  deriving DecidableEq, Repr

/-- Modelled from the spec: Reply, the shape of Request with `rep` for `cmd` and
`bnd_addr`/`bnd_port` for `dst_*` (§3). -/
structure Reply where
  Ver : Nat
  Rep : Nat
  Rsv : Nat
  Atyp : Nat
  BndAddr : List Nat
  BndPort : List Nat
  deriving DecidableEq, Repr

/-- Modelled from the spec: UDP Datagram `{ rsv=0x0000, frag, atyp, dst_addr, dst_port,
payload }` (§3). -/
structure Datagram where
  Rsv : List Nat
  Frag : Nat
  Atyp : Nat
  DstAddr : List Nat
  DstPort : List Nat
  Data : List Nat
  deriving DecidableEq, Repr

/-- Modelled from the spec: `io.ReadFull` on the unread input, as the codec's decoders (declared
outside `server.go`) use it: `n` octets or `ShortRead`, which leaves nothing unread. -/
def ReadFull (n : Nat) (r : List Nat) : Except Error (List Nat) × List Nat :=
  if r.length < n then (.error Error.ShortRead, []) else (.ok (r.take n), r.drop n)

/-- Modelled from the spec: the decoder of `0x05 | NMETHODS (1) | METHODS (NMETHODS)` (§6),
declared outside `server.go`.  It returns the frame or an ErrorKind, and the input left unread.
The spec bounds the method list by 1..255 (§3) and names no ErrorKind for NMETHODS = 0; the
model rejects it as a truncated frame. -/
def NewNegotiationRequestFrom : List Nat → Except Error NegotiationRequest × List Nat
  | ver :: n :: r =>
    if ver ≠ Ver then (.error Error.BadVersion, r)
    else if n = 0 then (.error Error.ShortRead, r)
    else
      match ReadFull n r with
      | (.error e, r) => (.error e, r)
      | (.ok ms, r) => (.ok { Ver := ver, Methods := ms }, r)
  | _ => (.error Error.ShortRead, [])

/-- Modelled from the spec: the constructor of NegotiationReply `0x05 | METHOD` (§6), declared
outside `server.go`. -/
def NewNegotiationReply (method : Nat) : NegotiationReply :=
  { Ver := Ver, Method := method }

/-- Modelled from the spec: the encoder of `0x05 | METHOD (1)` (§6), one write of two octets;
declared outside `server.go`. -/
def NegotiationReply.WriteTo (rp : NegotiationReply) (w : Conn) : Option Error × Conn :=
  w.Write [rp.Ver, rp.Method]

/-- Modelled from the spec: the decoder of `0x01 | ULEN | UNAME | PLEN | PASSWD` (§6), declared
outside `server.go`; uname and passwd have 1..255 octets (§3), a zero length is rejected as a
truncated frame. -/
def NewUserPassNegotiationRequestFrom : List Nat → Except Error UserPassNegotiationRequest × List Nat
  | ver :: ulen :: r =>
    if ver ≠ UserPassVer then (.error Error.BadSubVersion, r)
    else if ulen = 0 then (.error Error.ShortRead, r)
    else
      match ReadFull ulen r with
      | (.error e, r) => (.error e, r)
      | (.ok uname, r) =>
        match r with
        | [] => (.error Error.ShortRead, [])
        | plen :: r =>
          if plen = 0 then (.error Error.ShortRead, r)
          else
            match ReadFull plen r with
            | (.error e, r) => (.error e, r)
            | (.ok passwd, r) => (.ok { Ver := ver, Uname := uname, Passwd := passwd }, r)
  | _ => (.error Error.ShortRead, [])

/-- Modelled from the spec: the constructor of UserPassReply `0x01 | STATUS` (§6), declared
outside `server.go`. -/
def NewUserPassNegotiationReply (status : Nat) : UserPassNegotiationReply :=
  { Ver := UserPassVer, Status := status }

/-- Modelled from the spec: the encoder of `0x01 | STATUS (1)` (§6), one write of two octets;
declared outside `server.go`. -/
def UserPassNegotiationReply.WriteTo (rp : UserPassNegotiationReply) (w : Conn) :
    Option Error × Conn :=
  w.Write [rp.Ver, rp.Status]

/-- Modelled from the spec: the address part of a frame (§6 address encoding), read after the
ATYP octet: 4 octets for IPv4, 16 for IPv6, one length octet and that many octets for Domain,
the length octet staying inside the address (§4.1); any other ATYP is `UnknownATYP`, too few
octets `TruncatedAddress`. -/
def readAddress (atyp : Nat) (r : List Nat) : Except Error (List Nat) × List Nat :=
  if atyp = ATYPIPv4 then
    if r.length < 4 then (.error Error.TruncatedAddress, []) else (.ok (r.take 4), r.drop 4)
  else if atyp = ATYPIPv6 then
    if r.length < 16 then (.error Error.TruncatedAddress, []) else (.ok (r.take 16), r.drop 16)
  else if atyp = ATYPDomain then
    match r with
    | [] => (.error Error.TruncatedAddress, [])
    | l :: r =>
      if r.length < l then (.error Error.TruncatedAddress, [])
      else (.ok (l :: r.take l), r.drop l)
  else (.error Error.UnknownATYP, r)

/-- Modelled from the spec: the decoder of
`0x05 | CMD (1) | 0x00 | ATYP (1) | DST.ADDR | DST.PORT (2)` (§6), declared outside `server.go`;
it fails with BadVersion, BadReserved, UnknownATYP, TruncatedAddress or ShortRead (§4.1). -/
def NewRequestFrom : List Nat → Except Error Request × List Nat
  | ver :: cmd :: rsv :: atyp :: r =>
    if ver ≠ Ver then (.error Error.BadVersion, r)
    else if rsv ≠ 0 then (.error Error.BadReserved, r)
    else
      match readAddress atyp r with
      | (.error e, r) => (.error e, r)
      | (.ok addr, r) =>
        match ReadFull 2 r with
        | (.error e, r) => (.error e, r)
        | (.ok port, r) =>
          (.ok { Ver := ver, Cmd := cmd, Rsv := rsv, Atyp := atyp, DstAddr := addr,
                 DstPort := port }, r)
  | _ => (.error Error.ShortRead, [])

/-- Modelled from the spec: the constructor of Reply, declared outside `server.go`.  A Domain
address gets its length octet put in front, since the stored address of a domain carries the
length prefix (§4.1, §4.4). -/
def NewReply (rep atyp : Nat) (bndaddr bndport : List Nat) : Reply :=
  { Ver := Ver, Rep := rep, Rsv := 0, Atyp := atyp,
    BndAddr := if atyp = ATYPDomain then (bndaddr.length % 256) :: bndaddr else bndaddr,
    BndPort := bndport }

/-- Modelled from the spec: the encoder of
`0x05 | REP (1) | 0x00 | ATYP (1) | BND.ADDR | BND.PORT (2)` (§6), one write; declared outside
`server.go`. -/
def Reply.WriteTo (p : Reply) (w : Conn) : Option Error × Conn :=
  w.Write ([p.Ver, p.Rep, p.Rsv, p.Atyp] ++ p.BndAddr ++ p.BndPort)

/-- Modelled from the spec: the decoder of
`0x0000 | FRAG (1) | ATYP (1) | DST.ADDR | DST.PORT (2) | DATA` (§6) from one packet, declared
outside `server.go`; the rest of the packet after the port is the payload. -/
def NewDatagramFromBytes : List Nat → Except Error Datagram
  | r0 :: r1 :: frag :: atyp :: b =>
    if r0 ≠ 0 ∨ r1 ≠ 0 then .error Error.BadReserved
    else
      match readAddress atyp b with
      | (.error e, _) => .error e
      | (.ok addr, b) =>
        match ReadFull 2 b with
        | (.error e, _) => .error e
        | (.ok port, b) =>
          .ok { Rsv := [r0, r1], Frag := frag, Atyp := atyp, DstAddr := addr, DstPort := port,
                Data := b }
  | _ => .error Error.ShortRead

/-! ## The association tables (`zcache.LocalCache`) -/

/-- Modelled from the spec: the IsNotFound classification of the errors of a cache operation
(§4.2): a miss, or any other failure with its text. -/
inductive CacheError where
  | NotFound
  | Failure (text : String)
  deriving DecidableEq, Repr

/-- Modelled from the spec: the cache library behind the three tables is an external
collaborator of which only the interface Get, Set, Delete and IsNotFound is specified, every
entry carrying a TTL (§4.2).  The library `zcache` that `server.go` imports keeps an encoding
(JSON) of a value and not the Go value: `Get(ctx, key, &x)` decodes the stored encoding into
the empty interface `x`.  A table is therefore the list of its entries (key, value as `Get`
hands it back, TTL in nanoseconds), at most one per key, and `V` is the type of the values as
`Get` hands them back.  The three flags make an operation fail with an error other than a
miss, which is the outcome the error branches of `server.go` test for.  Eviction and expiry
between two operations are not modelled. -/
structure LocalCache (V : Type) where
  items : List (String × V × Nat)
  failGet : Bool
  failSet : Bool
  failDelete : Bool
  deriving DecidableEq, Repr

/-- Modelled from the spec: a cache as `zcache.NewLocalCache` returns it, empty and working. -/
def LocalCache.empty {V : Type} : LocalCache V :=
  { items := [], failGet := false, failSet := false, failDelete := false }

/-- Modelled from the spec: the value and TTL a table holds under a key (§4.2), if any. -/
def LocalCache.lookup {V : Type} (c : LocalCache V) (key : String) : Option (V × Nat) :=
  (c.items.find? (fun e => e.1 == key)).map (fun e => e.2)

/-- Modelled from the spec: `Get` of the cache interface (§4.2): the value under the key, a miss,
or a failure. -/
def LocalCache.Get {V : Type} (c : LocalCache V) (key : String) : Except CacheError V :=
  if c.failGet then .error (CacheError.Failure "get")
  else
    match c.lookup key with
    | some e => .ok e.1
    | none => .error CacheError.NotFound

/-- Modelled from the spec: `Set` of the cache interface (§4.2), for a value that is read back
as it was stored (a string): the entry under the key is replaced by the new value and TTL, or
the operation fails and stores nothing. -/
def LocalCache.Set {V : Type} (c : LocalCache V) (key : String) (value : V) (ttl : Nat) :
    Option CacheError × LocalCache V :=
  if c.failSet then (some (CacheError.Failure "set"), c)
  else (none, { c with items := (key, value, ttl) :: c.items.filter (fun e => e.1 != key) })

/-- Modelled from the spec: `Set` of the cache interface (§4.2), for a value that has to be
encoded first: `enc` is what the encoding of the value is read back as, or the text of the
encoder's error; on an encoder's error nothing is stored and `Set` returns that error. -/
def LocalCache.SetEncoded {V : Type} (c : LocalCache V) (key : String) (enc : Except String V)
    (ttl : Nat) : Option CacheError × LocalCache V :=
  match enc with
  | .error text => (some (CacheError.Failure text), c)
  | .ok value => c.Set key value ttl

/-- Modelled from the spec: `Delete` of the cache interface (§4.2): the entry under the key is
removed, or the operation fails and removes nothing. -/
def LocalCache.Delete {V : Type} (c : LocalCache V) (key : String) :
    Option CacheError × LocalCache V :=
  if c.failDelete then (some (CacheError.Failure "delete"), c)
  else (none, { c with items := c.items.filter (fun e => e.1 != key) })

/-- Modelled from the spec: `IsNotFoundError` of the cache interface (§4.2). -/
def IsNotFoundError (err : CacheError) : Bool :=
  match err with
  | CacheError.NotFound => true
  | CacheError.Failure _ => false

/-- Modelled from the spec: the text of a cache error, as `%v` prints it in `fmt.Errorf`. -/
def CacheError.text : CacheError → String
  | CacheError.NotFound => "not found"
  | CacheError.Failure t => t

/-! ## Server state -/

/-- A `*net.UDPAddr`, known through the text its `String` method gives. -/
structure UDPAddr where
  text : String
  deriving DecidableEq, Repr

/-- The `String` method of `*net.UDPAddr`. -/
def UDPAddr.String (a : UDPAddr) : String := a.text

/-- The type `UDPExchange` of `server.go`: the client address and the remote connection, which
is the index of a socket in the world. -/
structure UDPExchange where
  ClientAddr : UDPAddr
  RemoteConn : Nat
  deriving DecidableEq, Repr

/-- What `Get` on the table UDPExchanges puts into the empty interface `iue` of line 387:
a value of dynamic type `*UDPExchange`, or the generic map (`map[string]interface{}`) that the
encoding of an exchange is decoded to; of an exchange the encoding keeps the client address,
the remote connection not being data. -/
inductive ExchangeInterface where
  | pointer (ue : UDPExchange)
  | object (clientAddr : UDPAddr)
  deriving DecidableEq, Repr

/-- The text of the run-time panic of a failed assertion `iue.(*UDPExchange)` on a generic
map. -/
def conversionPanicText : String :=
  "interface conversion: interface \x7b\x7d is map[string]interface \x7b\x7d, "
    ++ "not *socks5.UDPExchange"

/-- The type assertion `iue.(*UDPExchange)` of line 390, which is unchecked: the exchange, or
the text of the run-time panic. -/
def ExchangeInterface.assertUDPExchange : ExchangeInterface → Except String UDPExchange
  | ExchangeInterface.pointer ue => .ok ue
  | ExchangeInterface.object _ => .error conversionPanicText

/-- What the encoding of a `*UDPExchange` given to `Set` (line 435) is read back as: the
generic map. -/
def encodeUDPExchange (ue : UDPExchange) : Except String ExchangeInterface :=
  .ok (ExchangeInterface.object ue.ClientAddr)

/-- What the encoding of a `chan byte` given to `Set` (line 340) is read back as: nothing, a
channel has no encoding and the encoder fails with this text. -/
def encodeChan : Nat → Except String Nat :=
  fun _ => .error "json: unsupported type: chan uint8"

/-- The type `Server` of `server.go`.  `UserName` and `Password` are Go strings, kept as their
octets.  The three tables are typed by what `Get` hands back: UDPSrc strings (a string is read
back as a string, so the assertion of line 403 holds), UDPExchanges the values of
`ExchangeInterface`, AssociatedUDP channel handles (indices of channels in the world), the
values on which the assertion of line 367 holds; `server.go` itself never fills AssociatedUDP,
see `encodeChan`.  The fields `UDPConn`, `Handle` and `RunnerGroup` are left out: the handler
is passed to the tasks as an argument. -/
structure Server where
  UserName : List Nat
  Password : List Nat
  Method : Nat
  SupportedCommands : List Nat
  Addr : String
  ServerAddr : String
  UDPExchanges : LocalCache ExchangeInterface
  TCPTimeout : Int
  UDPTimeout : Int
  AssociatedUDP : LocalCache Nat
  UDPSrc : LocalCache String
  LimitUDP : Bool
  deriving DecidableEq, Repr

/-- A connected UDP socket toward a remote: its local and remote address texts, the payloads
written to it (oldest first), whether it was closed, and whether writing to it fails. -/
structure Sock where
  laddr : String
  raddr : String
  sent : List (List Nat)
  closed : Bool
  wfail : Bool
  deriving DecidableEq, Repr

/-- The goroutine started at the end of `UDPHandle` (the remote→client pump) with what it
captures: the exchange, the destination text and the signal handle `ch` (`none` is the nil
channel). -/
structure Pump where
  ue : UDPExchange
  dst : String
  ch : Option Nat
  deriving DecidableEq, Repr

/-- What the handlers act on besides the server's tables: the channels made so far (`true` once
closed), the remote sockets dialed so far, the log of `DialUDP` calls (local address, remote
address; oldest first) and the pumps started so far. -/
structure World where
  chans : List Bool
  socks : List Sock
  dials : List (String × String)
  pumps : List Pump
  deriving DecidableEq, Repr

/-- Whether a receive from `ch` can proceed at once.  Nothing is ever sent on a signal handle,
so a receive proceeds only on a closed channel; a receive from the nil channel never does. -/
def World.chanReady (w : World) (ch : Option Nat) : Bool :=
  match ch with
  | none => false
  | some i => w.chans.getD i false

/-- The statement `ch := make(chan byte)`: a new open channel, with its handle. -/
def World.makeChan (w : World) : Nat × World :=
  (w.chans.length, { w with chans := w.chans ++ [false] })

/-- The statement `close(ch)`. -/
def World.closeChan (w : World) (ch : Nat) : World :=
  { w with chans := w.chans.set ch true }

/-- The `Write` method of a remote connection: the payload is sent unless the socket is closed
or failing. -/
def World.Write (w : World) (rc : Nat) (data : List Nat) : Option Error × World :=
  match w.socks[rc]? with
  | none => (some Error.WriteFailed, w)
  | some sk =>
    if sk.closed || sk.wfail then (some Error.WriteFailed, w)
    else (none, { w with socks := w.socks.set rc { sk with sent := sk.sent ++ [data] } })

/-- The `Close` method of a remote connection. -/
def World.CloseSock (w : World) (rc : Nat) : World :=
  match w.socks[rc]? with
  | none => w
  | some sk => { w with socks := w.socks.set rc { sk with closed := true } }

/-- The text of `LocalAddr().String()` of a remote connection. -/
def World.LocalAddr (w : World) (rc : Nat) : String :=
  match w.socks[rc]? with
  | none => ""
  | some sk => sk.laddr

/-! ## `Negotiate` and `GetRequest` -/

/-- The method `Negotiate` of `server.go` (lines 116-157), on the connection `rw`. -/
def Negotiate (s : Server) (rw : Conn) : Option Error × Conn :=
  match NewNegotiationRequestFrom rw.inp with
  | (.error err, rest) => (some err, { rw with inp := rest })
  | (.ok rq, rest) =>
    let rw := { rw with inp := rest }
    let got := rq.Methods.foldl (fun got m => if m = s.Method then true else got) false
    match (if !got then (NewNegotiationReply MethodUnsupportAll).WriteTo rw else (none, rw)) with
    | (some err, rw) => (some err, rw)
    | (none, rw) =>
      match (NewNegotiationReply s.Method).WriteTo rw with
      | (some err, rw) => (some err, rw)
      | (none, rw) =>
        if s.Method = MethodUsernamePassword then
          match NewUserPassNegotiationRequestFrom rw.inp with
          | (.error err, rest) => (some err, { rw with inp := rest })
          | (.ok urq, rest) =>
            let rw := { rw with inp := rest }
            if urq.Uname ≠ s.UserName ∨ urq.Passwd ≠ s.Password then
              match (NewUserPassNegotiationReply UserPassStatusFailure).WriteTo rw with
              | (some err, rw) => (some err, rw)
              | (none, rw) => (some Error.ErrUserPassAuth, rw)
            else
              match (NewUserPassNegotiationReply UserPassStatusSuccess).WriteTo rw with
              | (some err, rw) => (some err, rw)
              | (none, rw) => (none, rw)
        else (none, rw)

/-- The loop of `GetRequest` over `SupportedCommands` (lines 166-172): stops at the first
command equal to `cmd`. -/
def supportedCmd (cmd : Nat) : List Nat → Bool
  | [] => false
  | c :: cs => if cmd = c then true else supportedCmd cmd cs

/-- The method `GetRequest` of `server.go` (lines 161-186), on the connection `rw`. -/
def GetRequest (s : Server) (rw : Conn) : Except Error Request × Conn :=
  match NewRequestFrom rw.inp with
  | (.error err, rest) => (.error err, { rw with inp := rest })
  | (.ok r, rest) =>
    let rw := { rw with inp := rest }
    let supported := supportedCmd r.Cmd s.SupportedCommands
    if !supported then
      let p :=
        if r.Atyp = ATYPIPv4 ∨ r.Atyp = ATYPDomain then
          NewReply RepCommandNotSupported ATYPIPv4 [0x00, 0x00, 0x00, 0x00] [0x00, 0x00]
        else
          NewReply RepCommandNotSupported ATYPIPv6 IPv6zero [0x00, 0x00]
      match p.WriteTo rw with
      | (some err, rw) => (.error err, rw)
      | (none, rw) => (.error Error.ErrUnsupportCmd, rw)
    else (.ok r, rw)

/-! ## The two tasks of `ListenAndServe` -/

/-- A line written by `log.Println` in a task: an error, or the words "Ignore frag" with the
FRAG octet. -/
inductive LogLine where
  | error (err : Error)
  | ignoreFrag (frag : Nat)
  deriving DecidableEq, Repr

/-- The interface `Handler` of `server.go`, over any type `W` of things a handler acts on
besides the server and the client connection. -/
structure Handler (W : Type) where
  TCPHandle : Server → W → Conn → Request → Option Error × Server × W × Conn
  UDPHandle : Server → W → UDPAddr → Datagram → Option Error × Server × W

/-- The goroutine `ListenAndServe` starts for an accepted connection `c` (lines 210-224), with
the handler `h` the server was given: what it leaves of the server, the world and the
connection, and what it logged. -/
def ListenAndServe.tcpTask {W : Type} (h : Handler W) (s : Server) (w : W) (c : Conn) :
    Server × W × Conn × List LogLine :=
  match Negotiate s c with
  | (some err, c) => (s, w, c.Close, [LogLine.error err])
  | (none, c) =>
    match GetRequest s c with
    | (.error err, c) => (s, w, c.Close, [LogLine.error err])
    | (.ok r, c) =>
      match h.TCPHandle s w c r with
      | (some err, s, w, c) => (s, w, c.Close, [LogLine.error err])
      | (none, s, w, c) => (s, w, c.Close, [])

/-- The goroutine `ListenAndServe` starts for a received packet `b` from `addr` (lines 250-264),
with the handler `h`. -/
def ListenAndServe.udpTask {W : Type} (h : Handler W) (s : Server) (w : W) (addr : UDPAddr)
    (b : List Nat) : Server × W × List LogLine :=
  match NewDatagramFromBytes b with
  | .error err => (s, w, [LogLine.error err])
  | .ok d =>
    if d.Frag ≠ 0x00 then (s, w, [LogLine.ignoreFrag d.Frag])
    else
      match h.UDPHandle s w addr d with
      | (some err, s, w) => (s, w, [LogLine.error err])
      | (none, s, w) => (s, w, [])

/-! ## `DefaultHandle` -/

/-- What `DefaultHandle` calls and `server.go` does not declare, taken as parameters:
`Connect` is `r.Connect(c)` (dial the target, reply on `c`, give the remote connection);
`relay` is the pair of copy loops of the CONNECT branch (lines 299-330), run to their end;
`UDP` is `r.UDP(c, s.ServerAddr)` (reply on `c`, give the client's UDP address);
`Address` is the method `Address` of a datagram (the destination text);
`dialer` decides what a call of `DialUDP` with a local and a remote address gives in a world:
an error text, or the new socket. -/
structure Env where
  Connect : Request → World → Conn → Except Error Nat × World × Conn
  relay : Server → Nat → World → Conn → World × Conn
  UDP : Request → Conn → String → Except Error UDPAddr × Conn
  Address : Datagram → String
  dialer : World → String → String → Except String Sock

/-- Go's `strings.Contains`. -/
def stringsContains (s substr : String) : Bool :=
  s.toList.tails.any (fun t => substr.toList.isPrefixOf t)

/-- The world once one more call of `DialUDP` is logged. -/
def World.logDial (w : World) (laddr raddr : String) : World :=
  { w with dials := w.dials ++ [(laddr, raddr)] }

/-- The world once the socket `sk` a dial gave is added; its index is the former number of
sockets. -/
def World.addSock (w : World) (sk : Sock) : World :=
  { w with socks := w.socks ++ [sk] }

/-- A call `DialUDP("udp", laddr, raddr)`: logged, and answered by the environment. -/
def DialUDP (env : Env) (w : World) (laddr raddr : String) : Except String Nat × World :=
  let w := w.logDial laddr raddr
  match env.dialer w laddr raddr with
  | .error text => (.error text, w)
  | .ok sk => (.ok w.socks.length, w.addSock sk)

/-- The statement `io.Copy(ioutil.Discard, c)`: read and drop until end of stream or error. -/
def Conn.drain (c : Conn) : Conn := { c with inp := [] }

/-- The state of `TCPHandle` in its UDP ASSOCIATE branch while it drains the client connection
(line 345): server, world, connection, the client's UDP address and the handle `ch`. -/
structure Draining where
  s : Server
  w : World
  c : Conn
  caddr : UDPAddr
  ch : Nat
  deriving DecidableEq, Repr

/-- Lines 334-344 of `TCPHandle`: reply, make the handle, store it.  Either the call is over
(with its result, the deferred `close(ch)` done), or draining starts. -/
def TCPHandle.associate (env : Env) (s : Server) (w : World) (c : Conn) (r : Request) :
    (Option Error × Server × World × Conn) ⊕ Draining :=
  match env.UDP r c s.ServerAddr with
  | (.error err, c) => .inl (some err, s, w, c)
  | (.ok caddr, c) =>
    match w.makeChan with
    | (ch, w) =>
      match s.AssociatedUDP.SetEncoded caddr.String (encodeChan ch) (24 * Hour) with
      | (some err, au) =>
        .inl (some (Error.Errorf ("failed to set AssociatedUDP cache: " ++ err.text)),
              { s with AssociatedUDP := au }, w.closeChan ch, c)
      | (none, au) =>
        .inr { s := { s with AssociatedUDP := au }, w := w, c := c, caddr := caddr, ch := ch }

/-- Lines 345-349 of `TCPHandle` and its deferred calls, last deferred first: drain the
connection, delete the entry (the result of `Delete` is dropped), close the handle. -/
def TCPHandle.release (d : Draining) : Option Error × Server × World × Conn :=
  let c := d.c.drain
  let s := { d.s with AssociatedUDP := (d.s.AssociatedUDP.Delete d.caddr.String).2 }
  let w := d.w.closeChan d.ch
  (none, s, w, c)

/-- The method `TCPHandle` of `DefaultHandle` (lines 292-352). -/
def TCPHandle (env : Env) (s : Server) (w : World) (c : Conn) (r : Request) :
    Option Error × Server × World × Conn :=
  if r.Cmd = CmdConnect then
    match env.Connect r w c with
    | (.error err, w, c) => (some err, s, w, c)
    | (.ok rc, w, c) =>
      match env.relay s rc w c with
      | (w, c) => (none, s, w.CloseSock rc, c)
  else if r.Cmd = CmdUDP then
    match TCPHandle.associate env s w c r with
    | .inl res => res
    | .inr d => TCPHandle.release d
  else (some Error.ErrUnsupportCmd, s, w, c)

/-- Lines 357-368 of `UDPHandle`: the signal handle `ch` the call works with, `none` being the
nil channel of `var ch chan byte`. -/
def UDPHandle.signal (s : Server) (src : String) : Except Error (Option Nat) :=
  if s.LimitUDP then
    match s.AssociatedUDP.Get src with
    | .error err =>
      if IsNotFoundError err then
        .error (Error.Errorf ("This udp address " ++ src ++ " is not associated with tcp"))
      else .error (Error.Errorf ("failed to get from AssociatedUDP cache: " ++ err.text))
    | .ok chInterface => .ok (some chInterface)
  else .ok none

/-- The closure `send` of `UDPHandle` (lines 369-383), with the `src` and `ch` it captures. -/
def UDPHandle.send (src : String) (ch : Option Nat) (w : World) (ue : UDPExchange)
    (data : List Nat) : Option Error × World :=
  if w.chanReady ch then
    (some (Error.Errorf ("This udp address " ++ src ++ " is not associated with tcp")), w)
  else
    match w.Write ue.RemoteConn data with
    | (some err, w) => (some err, w)
    | (none, w) => (none, w)

/-- Lines 418-486 of `UDPHandle`, once the remote connection `rc` is dialed and `laddr` is the
local address it was asked for: record the source hint, send, store the exchange, start the
pump. -/
def UDPHandle.establish (s : Server) (w : World) (addr : UDPAddr) (d : Datagram)
    (src dst : String) (ch : Option Nat) (rc : Nat) (laddr : String) :
    Option Error × Server × World :=
  match (if laddr = "" then s.UDPSrc.Set (src ++ dst) (w.LocalAddr rc) (24 * Hour)
         else (none, s.UDPSrc)) with
  | (some err, us) =>
    (some (Error.Errorf ("failed to set UDPSrc cache: " ++ err.text)),
     { s with UDPSrc := us }, w)
  | (none, us) =>
    let s := { s with UDPSrc := us }
    let ue : UDPExchange := { ClientAddr := addr, RemoteConn := rc }
    match UDPHandle.send src ch w ue d.Data with
    | (some err, w) => (some err, s, w.CloseSock ue.RemoteConn)
    | (none, w) =>
      match s.UDPExchanges.SetEncoded (src ++ dst) (encodeUDPExchange ue) (24 * Hour) with
      | (some err, ux) =>
        (some (Error.Errorf ("failed to set UDPExchanges cache: " ++ err.text)),
         { s with UDPExchanges := ux }, w)
      | (none, ux) =>
        (none, { s with UDPExchanges := ux },
         { w with pumps := w.pumps ++ [{ ue := ue, dst := dst, ch := ch }] })

/-- Lines 399-406 of `UDPHandle`: the local address to dial from, the hint stored in `UDPSrc`
under the key, or the empty text when there is none. -/
def UDPHandle.hint (s : Server) (key : String) : Except Error String :=
  match s.UDPSrc.Get key with
  | .ok laddrInterface => .ok laddrInterface
  | .error err =>
    if !IsNotFoundError err then
      .error (Error.Errorf ("failed to get from UDPSrc cache: " ++ err.text))
    else .ok ""

/-- Lines 407-417 of `UDPHandle`: dial from `laddr`, and once more from the empty local address
when the error text has one of the two phrases; gives the remote connection and the value of
`laddr` afterwards. -/
def UDPHandle.dial (env : Env) (w : World) (laddr dst : String) :
    Except Error (Nat × String) × World :=
  match DialUDP env w laddr dst with
  | (.ok rc, w) => (.ok (rc, laddr), w)
  | (.error err, w) =>
    if !stringsContains err "address already in use"
        && !stringsContains err "can't assign requested address" then
      (.error (Error.Dial err), w)
    else
      match DialUDP env w "" dst with
      | (.error err, w) => (.error (Error.Dial err), w)
      | (.ok rc, w) => (.ok (rc, ""), w)

/-- The method `UDPHandle` of `DefaultHandle` (lines 355-487). -/
def UDPHandle (env : Env) (s : Server) (w : World) (addr : UDPAddr) (d : Datagram) :
    Option Error × Server × World :=
  let src := addr.String
  match UDPHandle.signal s src with
  | .error err => (some err, s, w)
  | .ok ch =>
    let dst := env.Address d
    match s.UDPExchanges.Get (src ++ dst) with
    | .ok iue =>
      match iue.assertUDPExchange with
      | .error text => (some (Error.Panic text), s, w)
      | .ok ue =>
        match UDPHandle.send src ch w ue d.Data with
        | (err, w) => (err, s, w)
    | .error err =>
      if !IsNotFoundError err then
        (some (Error.Errorf ("failed to get from UDPExchanges cache: " ++ err.text)), s, w)
      else
        match UDPHandle.hint s (src ++ dst) with
        | .error err => (some err, s, w)
        | .ok laddr =>
          match UDPHandle.dial env w laddr dst with
          | (.error err, w) => (some err, s, w)
          | (.ok (rc, laddr), w) => UDPHandle.establish s w addr d src dst ch rc laddr

/-- The branch the `select` at the head of the pump's loop takes (lines 448-454). -/
inductive PumpBranch where
  | associationClosed
  | default
  deriving DecidableEq, Repr

/-- The `select` of the pump's loop (lines 448-454): the case `<-ch` when a receive from `ch`
can proceed, else `default`. -/
def Pump.select (w : World) (p : Pump) : PumpBranch :=
  if w.chanReady p.ch then PumpBranch.associationClosed else PumpBranch.default

/-! ## `NewClassicServer` -/

/-- What `NewClassicServer` calls outside `server.go`, taken as parameters: `net.SplitHostPort`,
`net.JoinHostPort`, the resolver `Resolve`, and for each of the three calls of
`zcache.NewLocalCache` (numbered 0, 1, 2) the text of its error, if it fails. -/
structure ClassicEnv where
  SplitHostPort : String → Except Error (String × String)
  JoinHostPort : String → String → String
  Resolve : String → String → Except Error String
  NewLocalCache : Nat → Option String

/-- The function `NewClassicServer` of `server.go` (lines 54-111); `username` and `password`
are Go strings, kept as their octets. -/
def NewClassicServer (env : ClassicEnv) (addr ip : String) (username password : List Nat)
    (tcpTimeout udpTimeout : Int) : Except Error Server :=
  match env.SplitHostPort addr with
  | .error err => .error err
  | .ok (_, p) =>
    match env.Resolve "udp" (env.JoinHostPort ip p) with
    | .error err => .error err
    | .ok saddr =>
      let m := if username ≠ [] ∧ password ≠ [] then MethodUsernamePassword else MethodNone
      match env.NewLocalCache 0 with
      | some err => .error (Error.Errorf ("failed to create UDPExchanges cache: " ++ err))
      | none =>
        match env.NewLocalCache 1 with
        | some err => .error (Error.Errorf ("failed to create AssociatedUDP cache: " ++ err))
        | none =>
          match env.NewLocalCache 2 with
          | some err => .error (Error.Errorf ("failed to create UDPSrc cache: " ++ err))
          | none =>
            .ok { Method := m,
                  UserName := username,
                  Password := password,
                  SupportedCommands := [CmdConnect, CmdUDP],
                  Addr := addr,
                  ServerAddr := saddr,
                  UDPExchanges := LocalCache.empty,
                  TCPTimeout := tcpTimeout,
                  UDPTimeout := udpTimeout,
                  AssociatedUDP := LocalCache.empty,
                  UDPSrc := LocalCache.empty,
                  LimitUDP := false }

/-! ## Sample inputs and an observing handler -/

/-- A handler that does nothing but record its invocations, oldest first: the requests given to
`TCPHandle` and the (sender, datagram) pairs given to `UDPHandle`. -/
def recordingHandler : Handler (List Request × List (UDPAddr × Datagram)) where
  TCPHandle := fun s w c r => (none, s, (w.1 ++ [r], w.2), c)
  UDPHandle := fun s w addr d => (none, s, (w.1, w.2 ++ [(addr, d)]))

/-- A server as `NewClassicServer` builds it with the given credentials and method. -/
def sampleServer (username password : List Nat) (method : Nat) : Server :=
  { UserName := username, Password := password, Method := method,
    SupportedCommands := [CmdConnect, CmdUDP], Addr := "127.0.0.1:1080",
    ServerAddr := "127.0.0.1:1080", UDPExchanges := LocalCache.empty, TCPTimeout := 0,
    UDPTimeout := 0, AssociatedUDP := LocalCache.empty, UDPSrc := LocalCache.empty,
    LimitUDP := false }

/-- A fresh connection on which the client sends `inp` and `wleft` writes succeed. -/
def sampleConn (inp : List Nat) (wleft : Nat) : Conn :=
  { inp := inp, out := [], wleft := wleft, closed := false }

/-- The octets of "user". -/
def userOctets : List Nat := [0x75, 0x73, 0x65, 0x72]

/-- The octets of "pass". -/
def passOctets : List Nat := [0x70, 0x61, 0x73, 0x73]

/-- The BIND request `05 02 00 01 00000000 0000` of scenario S4. -/
def bindRequestBytes : List Nat := [0x05, 0x02, 0x00, 0x01, 0, 0, 0, 0, 0, 0]

/-- The CONNECT request `05 01 00 01 7F000001 0050` of scenario S1. -/
def connectRequestBytes : List Nat := [0x05, 0x01, 0x00, 0x01, 0x7F, 0, 0, 1, 0x00, 0x50]

/-- An environment for `NewClassicServer` in which every call succeeds. -/
def sampleClassicEnv : ClassicEnv where
  SplitHostPort := fun _ => .ok ("0.0.0.0", "1080")
  JoinHostPort := fun host port => host ++ ":" ++ port
  Resolve := fun _ a => .ok a
  NewLocalCache := fun _ => none

/-- A client UDP source address. -/
def sampleClient : UDPAddr := { text := "10.0.0.9:4000" }

/-- The datagram `0000 00 01 08080808 0035 AA` (to 8.8.8.8:53, payload `AA`). -/
def sampleDatagram : Datagram :=
  { Rsv := [0, 0], Frag := 0, Atyp := 1, DstAddr := [8, 8, 8, 8], DstPort := [0x00, 0x35],
    Data := [0xAA] }

/-- An open remote socket toward 8.8.8.8:53 with nothing sent yet. -/
def sampleSock : Sock :=
  { laddr := "0.0.0.0:5000", raddr := "8.8.8.8:53", sent := [], closed := false,
    wfail := false }

/-- A world with no channels, sockets, dials or pumps. -/
def emptyWorld : World := { chans := [], socks := [], dials := [], pumps := [] }

/-- An environment for `DefaultHandle`: the destination text of every datagram is
"8.8.8.8:53"; a dial from the empty local address gives a socket bound to "0.0.0.0:5000", a
dial from "0.0.0.0:6000" a socket bound there, a dial from any other local address fails
with "bind: address already in use"; `UDP` replies `05 00 00 01 7F000001 0438` and gives the
client address "10.0.0.9:4000"; `Connect` fails. -/
def sampleEnv : Env where
  Connect := fun _ w c => (.error (Error.Other "connection refused"), w, c)
  relay := fun _ _ w c => (w, c)
  UDP := fun _ c _ =>
    match c.Write [0x05, 0x00, 0x00, 0x01, 0x7F, 0, 0, 1, 0x04, 0x38] with
    | (some err, c) => (.error err, c)
    | (none, c) => (.ok sampleClient, c)
  Address := fun _ => "8.8.8.8:53"
  dialer := fun _ laddr raddr =>
    if laddr = "" then .ok { sampleSock with raddr := raddr }
    else if laddr = "0.0.0.0:6000" then .ok { sampleSock with laddr := laddr, raddr := raddr }
    else .error "bind: address already in use"

/-- A server with LimitUDP off and an AssociatedUDP entry for "10.0.0.8:4000" with handle 0. -/
def sampleAssocServer : Server :=
  { sampleServer [] [] MethodNone with
    AssociatedUDP :=
      { items := [("10.0.0.8:4000", 0, 24 * Hour)],
        failGet := false, failSet := false, failDelete := false } }

/-- A world with one channel, still open, and nothing else. -/
def sampleAssocWorld : World :=
  { chans := [false], socks := [], dials := [], pumps := [] }

/-- The first datagram of a flow: `UDPHandle` on a server with empty tables and LimitUDP off,
for `sampleDatagram` from `sampleClient`. -/
def sampleFirstDatagram : Option Error × Server × World :=
  UDPHandle sampleEnv (sampleServer [] [] MethodNone) emptyWorld sampleClient sampleDatagram

/-- The UDP ASSOCIATE request `05 03 00 01 00000000 0000`. -/
def sampleAssociateRequest : Request :=
  { Ver := 5, Cmd := 3, Rsv := 0, Atyp := 1, DstAddr := [0, 0, 0, 0], DstPort := [0, 0] }

/-- A server with LimitUDP off, no exchange, and the source hint "0.0.0.0:7000" stored for
("10.0.0.9:4000", "8.8.8.8:53"). -/
def sampleHintServer : Server :=
  { sampleServer [] [] MethodNone with
    UDPSrc :=
      { items := [("10.0.0.9:40008.8.8.8:53", "0.0.0.0:7000", 24 * Hour)],
        failGet := false, failSet := false, failDelete := false } }

/-! ## Helper lemmas -/

theorem got_eq_true_iff (m : Nat) (ms : List Nat) :
    ms.foldl (fun got x => if x = m then true else got) false = true ↔ m ∈ ms := by
  have key : ∀ (l : List Nat) (b : Bool),
      l.foldl (fun got x => if x = m then true else got) b = true ↔ (b = true ∨ m ∈ l) := by
    intro l
    induction l with
    | nil => intro b; simp
    | cons x xs ih =>
      intro b
      rw [List.foldl_cons, ih]
      by_cases hx : x = m
      · simp [hx]
      · have hx2 : ¬ m = x := fun h => hx h.symm
        simp [hx, hx2]
  simpa using key ms false

theorem supportedCmd_eq_true_iff (cmd : Nat) (cs : List Nat) :
    supportedCmd cmd cs = true ↔ cmd ∈ cs := by
  induction cs with
  | nil => simp [supportedCmd]
  | cons c cs ih =>
    by_cases hc : cmd = c
    · simp [supportedCmd, hc]
    · simp [supportedCmd, hc, ih]

theorem Conn.Write_of_pos (c : Conn) (b : List Nat) (h : 1 ≤ c.wleft) :
    c.Write b = (none, { c with out := c.out ++ [b], wleft := c.wleft - 1 }) := by
  cases c with
  | mk inp out wleft closed =>
    cases wleft with
    | zero => simp at h
    | succ n => simp [Conn.Write]

/-! ### The decoders accept every well-formed frame -/

theorem ReadFull_append (b rest : List Nat) :
    ReadFull b.length (b ++ rest) = (.ok b, rest) := by
  simp [ReadFull]

theorem NewNegotiationRequestFrom_frame (methods rest : List Nat) (h : methods ≠ []) :
    NewNegotiationRequestFrom (Ver :: methods.length :: (methods ++ rest))
      = (.ok { Ver := Ver, Methods := methods }, rest) := by
  have hl : ¬ methods.length = 0 := by
    intro h0; exact h (List.length_eq_zero.mp h0)
  simp only [NewNegotiationRequestFrom, ne_eq, not_true_eq_false, if_false, hl, ReadFull_append]

theorem NewUserPassNegotiationRequestFrom_frame (uname passwd rest : List Nat)
    (hu : uname ≠ []) (hp : passwd ≠ []) :
    NewUserPassNegotiationRequestFrom
        (UserPassVer :: uname.length :: (uname ++ passwd.length :: (passwd ++ rest)))
      = (.ok { Ver := UserPassVer, Uname := uname, Passwd := passwd }, rest) := by
  have hul : ¬ uname.length = 0 := by
    intro h0; exact hu (List.length_eq_zero.mp h0)
  have hpl : ¬ passwd.length = 0 := by
    intro h0; exact hp (List.length_eq_zero.mp h0)
  simp only [NewUserPassNegotiationRequestFrom, ne_eq, not_true_eq_false, if_false, hul, hpl,
    ReadFull_append]

theorem NewRequestFrom_frame_IPv4 (cmd a b c d p q : Nat) (rest : List Nat) :
    NewRequestFrom (Ver :: cmd :: 0 :: ATYPIPv4 :: a :: b :: c :: d :: p :: q :: rest)
      = (.ok { Ver := Ver, Cmd := cmd, Rsv := 0, Atyp := ATYPIPv4, DstAddr := [a, b, c, d],
               DstPort := [p, q] }, rest) := by
  have h4 : ¬ (rest.length + 1 + 1 + 1 + 1 + 1 + 1 < 4) := by omega
  have h2 : ¬ (rest.length + 1 + 1 < 2) := by omega
  simp [NewRequestFrom, readAddress, ReadFull, h4, h2]

theorem NewRequestFrom_frame_IPv6 (cmd p q : Nat) (ip rest : List Nat) (h : ip.length = 16) :
    NewRequestFrom (Ver :: cmd :: 0 :: ATYPIPv6 :: (ip ++ p :: q :: rest))
      = (.ok { Ver := Ver, Cmd := cmd, Rsv := 0, Atyp := ATYPIPv6, DstAddr := ip,
               DstPort := [p, q] }, rest) := by
  have hne : ¬ (ATYPIPv6 = ATYPIPv4) := by decide
  have ht : List.take 16 (ip ++ p :: q :: rest) = ip := by
    rw [← h]; exact List.take_left' rfl
  have hd : List.drop 16 (ip ++ p :: q :: rest) = p :: q :: rest := by
    rw [← h]; exact List.drop_left' rfl
  have h2 : ¬ (rest.length + 1 + 1 < 2) := by omega
  simp [NewRequestFrom, readAddress, ReadFull, hne, h, ht, hd, h2]

theorem NewRequestFrom_frame_Domain (cmd p q : Nat) (host rest : List Nat) :
    NewRequestFrom (Ver :: cmd :: 0 :: ATYPDomain :: host.length :: (host ++ p :: q :: rest))
      = (.ok { Ver := Ver, Cmd := cmd, Rsv := 0, Atyp := ATYPDomain,
               DstAddr := host.length :: host, DstPort := [p, q] }, rest) := by
  have hne1 : ¬ (ATYPDomain = ATYPIPv4) := by decide
  have hne2 : ¬ (ATYPDomain = ATYPIPv6) := by decide
  have h2 : ¬ (rest.length + 1 + 1 < 2) := by omega
  simp [NewRequestFrom, readAddress, ReadFull, hne1, hne2, h2]

/-! ### What `Negotiate` does when the configured method is not offered -/

theorem Negotiate_method_not_offered (s : Server) (rw : Conn) (rq : NegotiationRequest)
    (rest : List Nat) (h1 : NewNegotiationRequestFrom rw.inp = (.ok rq, rest))
    (hoff : s.Method ∉ rq.Methods) (hm : s.Method ≠ MethodUsernamePassword)
    (hw : 2 ≤ rw.wleft) :
    Negotiate s rw = (none, { inp := rest, out := rw.out ++ [[0x05, 0xFF], [0x05, s.Method]],
                              wleft := rw.wleft - 2, closed := rw.closed }) := by
  have hgot : rq.Methods.foldl (fun got m => if m = s.Method then true else got) false
      = false := by
    rw [← Bool.not_eq_true, got_eq_true_iff]; exact hoff
  have hw1 : 1 ≤ rw.wleft := by omega
  have hw2 : 1 ≤ rw.wleft - 1 := by omega
  simp only [Negotiate, h1, hgot, NegotiationReply.WriteTo, NewNegotiationReply, Bool.not_false,
    if_true, if_neg hm]
  rw [Conn.Write_of_pos _ _ (by simpa using hw1)]
  simp only
  rw [Conn.Write_of_pos _ _ (by simpa using hw2)]
  simp [Ver, MethodUnsupportAll, Nat.sub_sub]

/-! ## Claims -/

/-- C1 (the code departs from the claim): a server with Method NoAuth that reads the
well-formed negotiation request `05 01 02`, which does not offer NoAuth, writes `05 FF` and
then also `05 00` and returns no error; a server with Method UserPass and credentials
"u"/"p" that reads `05 01 00` followed by the frame `01 01 75 01 70` writes `05 FF`, then
`05 02`, reads the username/password frame, writes `01 00` and returns no error. -/
theorem Negotiate_method_not_offered_goes_on :
    Negotiate
        { UserName := [], Password := [], Method := MethodNone,
          SupportedCommands := [CmdConnect, CmdUDP], Addr := "", ServerAddr := "",
          UDPExchanges := LocalCache.empty, TCPTimeout := 0, UDPTimeout := 0,
          AssociatedUDP := LocalCache.empty, UDPSrc := LocalCache.empty, LimitUDP := false }
        { inp := [0x05, 0x01, 0x02], out := [], wleft := 4, closed := false }
      = (none, { inp := [], out := [[0x05, 0xFF], [0x05, 0x00]], wleft := 2, closed := false })
    ∧ Negotiate
        { UserName := [0x75], Password := [0x70], Method := MethodUsernamePassword,
          SupportedCommands := [CmdConnect, CmdUDP], Addr := "", ServerAddr := "",
          UDPExchanges := LocalCache.empty, TCPTimeout := 0, UDPTimeout := 0,
          AssociatedUDP := LocalCache.empty, UDPSrc := LocalCache.empty, LimitUDP := false }
        { inp := [0x05, 0x01, 0x00, 0x01, 0x01, 0x75, 0x01, 0x70], out := [], wleft := 4,
          closed := false }
      = (none, { inp := [], out := [[0x05, 0xFF], [0x05, 0x02], [0x01, 0x00]], wleft := 1,
                 closed := false }) := by
  constructor <;> rfl

/-- C2: with Method = UserPass, a negotiation request that offers 0x02 and a write budget of
two, whatever username/password frame is read next: when its uname and passwd equal UserName
and Password octet for octet, Negotiate writes `05 02` then `01 00` and returns no error; in
every other case it writes `05 02` then `01 01` and returns ErrUserPassAuth; so it returns no
error if and only if both are equal. -/
theorem Negotiate_userpass (s : Server) (rw : Conn) (rq : NegotiationRequest)
    (urq : UserPassNegotiationRequest) (rest1 rest2 : List Nat)
    (hm : s.Method = MethodUsernamePassword)
    (h1 : NewNegotiationRequestFrom rw.inp = (.ok rq, rest1))
    (hoff : MethodUsernamePassword ∈ rq.Methods)
    (h2 : NewUserPassNegotiationRequestFrom rest1 = (.ok urq, rest2))
    (hw : 2 ≤ rw.wleft) :
    ((urq.Uname = s.UserName ∧ urq.Passwd = s.Password) →
        Negotiate s rw = (none, { inp := rest2, out := rw.out ++ [[0x05, 0x02], [0x01, 0x00]],
                                  wleft := rw.wleft - 2, closed := rw.closed }))
    ∧ (¬ (urq.Uname = s.UserName ∧ urq.Passwd = s.Password) →
        Negotiate s rw = (some Error.ErrUserPassAuth,
                          { inp := rest2, out := rw.out ++ [[0x05, 0x02], [0x01, 0x01]],
                            wleft := rw.wleft - 2, closed := rw.closed }))
    ∧ ((Negotiate s rw).1 = none ↔ (urq.Uname = s.UserName ∧ urq.Passwd = s.Password)) := by
  have hgot : rq.Methods.foldl
      (fun got m => if m = MethodUsernamePassword then true else got) false = true := by
    rw [got_eq_true_iff]; exact hoff
  have hA : (urq.Uname = s.UserName ∧ urq.Passwd = s.Password) →
      Negotiate s rw = (none, { inp := rest2, out := rw.out ++ [[0x05, 0x02], [0x01, 0x00]],
                                wleft := rw.wleft - 2, closed := rw.closed }) := by
    intro hc
    have hw1 : 1 ≤ rw.wleft := by omega
    have hw2 : 1 ≤ rw.wleft - 1 := by omega
    have hne : ¬ (urq.Uname ≠ s.UserName ∨ urq.Passwd ≠ s.Password) := by
      rw [not_or]; exact ⟨not_not.mpr hc.1, not_not.mpr hc.2⟩
    simp only [Negotiate, h1, hm, hgot, NegotiationReply.WriteTo, NewNegotiationReply,
      UserPassNegotiationReply.WriteTo, NewUserPassNegotiationReply, Bool.not_true,
      Bool.false_eq_true, if_false, if_true]
    rw [Conn.Write_of_pos _ _ (by simpa using hw1)]
    simp only [h2, if_neg hne]
    rw [Conn.Write_of_pos _ _ (by simpa using hw2)]
    simp [Ver, UserPassVer, MethodUsernamePassword, UserPassStatusSuccess, Nat.sub_sub]
  have hB : ¬ (urq.Uname = s.UserName ∧ urq.Passwd = s.Password) →
      Negotiate s rw = (some Error.ErrUserPassAuth,
                        { inp := rest2, out := rw.out ++ [[0x05, 0x02], [0x01, 0x01]],
                          wleft := rw.wleft - 2, closed := rw.closed }) := by
    intro hc
    have hw1 : 1 ≤ rw.wleft := by omega
    have hw2 : 1 ≤ rw.wleft - 1 := by omega
    have hne : urq.Uname ≠ s.UserName ∨ urq.Passwd ≠ s.Password := by
      by_contra hcon
      rw [not_or] at hcon
      exact hc ⟨not_not.mp hcon.1, not_not.mp hcon.2⟩
    simp only [Negotiate, h1, hm, hgot, NegotiationReply.WriteTo, NewNegotiationReply,
      UserPassNegotiationReply.WriteTo, NewUserPassNegotiationReply, Bool.not_true,
      Bool.false_eq_true, if_false, if_true]
    rw [Conn.Write_of_pos _ _ (by simpa using hw1)]
    simp only [h2, if_pos hne]
    rw [Conn.Write_of_pos _ _ (by simpa using hw2)]
    simp [Ver, UserPassVer, MethodUsernamePassword, UserPassStatusFailure, Nat.sub_sub]
  refine ⟨hA, hB, ?_⟩
  constructor
  · intro hnone
    by_contra hc
    rw [hB hc] at hnone
    simp at hnone
  · intro hc
    rw [hA hc]

/-- Witness of C2 on scenario S2 with the configured password "pass" followed by a NUL: the
client offers UserPass and sends "user"/"pass"; the passwords differ in length, so the reply is
`01 01` and the result ErrUserPassAuth. -/
theorem Negotiate_userpass_witness :
    (sampleServer userOctets (passOctets ++ [0]) MethodUsernamePassword).Method
        = MethodUsernamePassword
    ∧ NewNegotiationRequestFrom
        (sampleConn ([0x05, 0x01, 0x02] ++ [0x01, 0x04] ++ userOctets ++ [0x04] ++ passOctets) 2).inp
        = (.ok { Ver := 5, Methods := [2] }, [0x01, 0x04] ++ userOctets ++ [0x04] ++ passOctets)
    ∧ MethodUsernamePassword ∈ [2]
    ∧ NewUserPassNegotiationRequestFrom ([0x01, 0x04] ++ userOctets ++ [0x04] ++ passOctets)
        = (.ok { Ver := 1, Uname := userOctets, Passwd := passOctets }, [])
    ∧ 2 ≤ (sampleConn ([0x05, 0x01, 0x02] ++ [0x01, 0x04] ++ userOctets ++ [0x04] ++ passOctets)
            2).wleft
    ∧ Negotiate (sampleServer userOctets (passOctets ++ [0]) MethodUsernamePassword)
        (sampleConn ([0x05, 0x01, 0x02] ++ [0x01, 0x04] ++ userOctets ++ [0x04] ++ passOctets) 2)
        = (some Error.ErrUserPassAuth,
           { inp := [], out := [[0x05, 0x02], [0x01, 0x01]], wleft := 0, closed := false }) :=
  ⟨rfl, rfl, by decide, rfl, by decide,
   (Negotiate_userpass (sampleServer userOctets (passOctets ++ [0]) MethodUsernamePassword)
      (sampleConn ([0x05, 0x01, 0x02] ++ [0x01, 0x04] ++ userOctets ++ [0x04] ++ passOctets) 2)
      { Ver := 5, Methods := [2] } { Ver := 1, Uname := userOctets, Passwd := passOctets }
      ([0x01, 0x04] ++ userOctets ++ [0x04] ++ passOctets) [] (by rfl) (by rfl) (by decide)
      (by rfl) (by decide)).2.1 (by decide)⟩

/-- C3: when the request read from the connection is `r`: if `r.Cmd` is in SupportedCommands,
GetRequest writes nothing and returns `r`; otherwise, a write succeeding, it returns
ErrUnsupportCmd after writing the one reply `05 07 00 01 00000000 0000` when `r.Atyp` is IPv4 or
Domain, and the one reply `05 07 00 04`, sixteen zero octets, `0000` for every other ATYP; with
SupportedCommands = [CONNECT, UDP ASSOCIATE] the BIND request `05 02 00 01 00000000 0000` is
answered `05 07 00 01 00000000 0000`. -/
theorem GetRequest_command_gate (s : Server) (rw : Conn) (r : Request) (rest : List Nat)
    (hr : NewRequestFrom rw.inp = (.ok r, rest)) :
    (r.Cmd ∈ s.SupportedCommands → GetRequest s rw = (.ok r, { rw with inp := rest }))
    ∧ (r.Cmd ∉ s.SupportedCommands → 1 ≤ rw.wleft →
        (r.Atyp = ATYPIPv4 ∨ r.Atyp = ATYPDomain) →
        GetRequest s rw =
          (.error Error.ErrUnsupportCmd,
           { inp := rest, out := rw.out ++ [[0x05, 0x07, 0x00, 0x01, 0, 0, 0, 0, 0, 0]],
             wleft := rw.wleft - 1, closed := rw.closed }))
    ∧ (r.Cmd ∉ s.SupportedCommands → 1 ≤ rw.wleft →
        ¬ (r.Atyp = ATYPIPv4 ∨ r.Atyp = ATYPDomain) →
        GetRequest s rw =
          (.error Error.ErrUnsupportCmd,
           { inp := rest,
             out := rw.out ++ [[0x05, 0x07, 0x00, 0x04] ++ List.replicate 16 0 ++ [0, 0]],
             wleft := rw.wleft - 1, closed := rw.closed }))
    ∧ (s.SupportedCommands = [CmdConnect, CmdUDP] → rw.inp = bindRequestBytes → 1 ≤ rw.wleft →
        GetRequest s rw =
          (.error Error.ErrUnsupportCmd,
           { inp := [], out := rw.out ++ [[0x05, 0x07, 0x00, 0x01, 0, 0, 0, 0, 0, 0]],
             wleft := rw.wleft - 1, closed := rw.closed })) := by
  have h2 : r.Cmd ∉ s.SupportedCommands → 1 ≤ rw.wleft →
      (r.Atyp = ATYPIPv4 ∨ r.Atyp = ATYPDomain) →
      GetRequest s rw =
        (.error Error.ErrUnsupportCmd,
         { inp := rest, out := rw.out ++ [[0x05, 0x07, 0x00, 0x01, 0, 0, 0, 0, 0, 0]],
           wleft := rw.wleft - 1, closed := rw.closed }) := by
    intro hc hw ha
    have hs : supportedCmd r.Cmd s.SupportedCommands = false := by
      rw [← Bool.not_eq_true, supportedCmd_eq_true_iff]; exact hc
    simp only [GetRequest, hr, hs, Bool.not_false, if_true, if_pos ha, Reply.WriteTo]
    rw [Conn.Write_of_pos _ _ (by simpa using hw)]
    simp [NewReply, Ver, RepCommandNotSupported, ATYPIPv4, ATYPDomain]
  refine ⟨?_, h2, ?_, ?_⟩
  · intro hc
    have hs : supportedCmd r.Cmd s.SupportedCommands = true :=
      (supportedCmd_eq_true_iff _ _).mpr hc
    simp [GetRequest, hr, hs]
  · intro hc hw ha
    have hs : supportedCmd r.Cmd s.SupportedCommands = false := by
      rw [← Bool.not_eq_true, supportedCmd_eq_true_iff]; exact hc
    simp only [GetRequest, hr, hs, Bool.not_false, if_true, if_neg ha, Reply.WriteTo]
    rw [Conn.Write_of_pos _ _ (by simpa using hw)]
    simp [NewReply, Ver, RepCommandNotSupported, ATYPIPv6, ATYPDomain, IPv6zero]
  · intro hsc hin hw
    have hr2 : NewRequestFrom rw.inp
        = (.ok { Ver := 5, Cmd := 2, Rsv := 0, Atyp := 1, DstAddr := [0, 0, 0, 0],
                 DstPort := [0, 0] }, []) := by
      rw [hin]; rfl
    rw [hr] at hr2
    have hreq : r = { Ver := 5, Cmd := 2, Rsv := 0, Atyp := 1, DstAddr := [0, 0, 0, 0],
                      DstPort := [0, 0] } := by
      injection hr2 with ha hb
      injection ha
    have hrest : rest = [] := by
      injection hr2
    have := h2 (by rw [hsc, hreq]; decide) hw (by rw [hreq]; decide)
    rw [this, hrest]

/-- Witness of C3 on scenario S4: the BIND request under the default SupportedCommands. -/
theorem GetRequest_command_gate_witness :
    NewRequestFrom (sampleConn bindRequestBytes 1).inp
        = (.ok { Ver := 5, Cmd := 2, Rsv := 0, Atyp := 1, DstAddr := [0, 0, 0, 0],
                 DstPort := [0, 0] }, [])
    ∧ GetRequest (sampleServer [] [] MethodNone) (sampleConn bindRequestBytes 1)
        = (.error Error.ErrUnsupportCmd,
           { inp := [], out := [[0x05, 0x07, 0x00, 0x01, 0, 0, 0, 0, 0, 0]], wleft := 0,
             closed := false }) :=
  ⟨rfl,
   (GetRequest_command_gate (sampleServer [] [] MethodNone) (sampleConn bindRequestBytes 1)
      { Ver := 5, Cmd := 2, Rsv := 0, Atyp := 1, DstAddr := [0, 0, 0, 0], DstPort := [0, 0] }
      [] (by rfl)).2.2.2 (by rfl) (by rfl) (by decide)⟩

/-- C4: the task of an accepted connection runs Negotiate, GetRequest, TCPHandle in that
order and stops at the first error, for every handler `h` and everything `w` a handler acts on:
when Negotiate fails the task ends with the connection as Negotiate left it (nothing more is
read), closed, and with `s` and `w` untouched; when GetRequest fails the task ends with the
connection as GetRequest left it and with `s` and `w` untouched, so TCPHandle was not invoked;
otherwise TCPHandle is given the request GetRequest returned, on the connection as GetRequest
left it. -/
theorem tcpTask_stops_at_first_error {W : Type} (h : Handler W) (s : Server) (w : W)
    (c : Conn) :
    (∀ err c1, Negotiate s c = (some err, c1) →
        ListenAndServe.tcpTask h s w c = (s, w, c1.Close, [LogLine.error err]))
    ∧ (∀ c1 err c2, Negotiate s c = (none, c1) → GetRequest s c1 = (.error err, c2) →
        ListenAndServe.tcpTask h s w c = (s, w, c2.Close, [LogLine.error err]))
    ∧ (∀ c1 r c2, Negotiate s c = (none, c1) → GetRequest s c1 = (.ok r, c2) →
        ListenAndServe.tcpTask h s w c =
          ((h.TCPHandle s w c2 r).2.1, (h.TCPHandle s w c2 r).2.2.1,
           (h.TCPHandle s w c2 r).2.2.2.Close,
           match (h.TCPHandle s w c2 r).1 with
           | some err => [LogLine.error err]
           | none => [])) := by
  refine ⟨?_, ?_, ?_⟩
  · intro err c1 hn
    simp [ListenAndServe.tcpTask, hn]
  · intro c1 err c2 hn hg
    simp [ListenAndServe.tcpTask, hn, hg]
  · intro c1 r c2 hn hg
    simp only [ListenAndServe.tcpTask, hn, hg]
    rcases hh : h.TCPHandle s w c2 r with ⟨e, s1, w1, c3⟩
    cases e <;> simp

/-- Witness of C4 with the handler that records its invocations.  Scenario S3 (configured
"user"/"pass", client sends "user"/"user", then a CONNECT request): the replies are `05 02`,
`01 01`, the request frame stays unread, the handler is not invoked.  Scenario S4 (BIND): the
replies are `05 00` and `05 07 00 01 00000000 0000`, the handler is not invoked.  Scenario S1
(CONNECT): the handler is invoked once, with the CONNECT request. -/
theorem tcpTask_stops_at_first_error_witness :
    ListenAndServe.tcpTask recordingHandler
        (sampleServer userOctets passOctets MethodUsernamePassword) ([], [])
        (sampleConn ([0x05, 0x01, 0x02] ++ [0x01, 0x04] ++ userOctets ++ [0x04] ++ userOctets
                      ++ connectRequestBytes) 8)
      = (sampleServer userOctets passOctets MethodUsernamePassword, ([], []),
         { inp := connectRequestBytes, out := [[0x05, 0x02], [0x01, 0x01]], wleft := 6,
           closed := true },
         [LogLine.error Error.ErrUserPassAuth])
    ∧ ListenAndServe.tcpTask recordingHandler (sampleServer [] [] MethodNone) ([], [])
        (sampleConn ([0x05, 0x01, 0x00] ++ bindRequestBytes) 8)
      = (sampleServer [] [] MethodNone, ([], []),
         { inp := [], out := [[0x05, 0x00], [0x05, 0x07, 0x00, 0x01, 0, 0, 0, 0, 0, 0]],
           wleft := 6, closed := true },
         [LogLine.error Error.ErrUnsupportCmd])
    ∧ ListenAndServe.tcpTask recordingHandler (sampleServer [] [] MethodNone) ([], [])
        (sampleConn ([0x05, 0x01, 0x00] ++ connectRequestBytes) 8)
      = (sampleServer [] [] MethodNone,
         ([{ Ver := 5, Cmd := 1, Rsv := 0, Atyp := 1, DstAddr := [0x7F, 0, 0, 1],
             DstPort := [0x00, 0x50] }], []),
         { inp := [], out := [[0x05, 0x00]], wleft := 7, closed := true }, []) :=
  ⟨(tcpTask_stops_at_first_error recordingHandler
      (sampleServer userOctets passOctets MethodUsernamePassword) ([], [])
      (sampleConn ([0x05, 0x01, 0x02] ++ [0x01, 0x04] ++ userOctets ++ [0x04] ++ userOctets
                    ++ connectRequestBytes) 8)).1 Error.ErrUserPassAuth
      { inp := connectRequestBytes, out := [[0x05, 0x02], [0x01, 0x01]], wleft := 6,
        closed := false } (by rfl),
   (tcpTask_stops_at_first_error recordingHandler (sampleServer [] [] MethodNone) ([], [])
      (sampleConn ([0x05, 0x01, 0x00] ++ bindRequestBytes) 8)).2.1
      { inp := bindRequestBytes, out := [[0x05, 0x00]], wleft := 7, closed := false }
      Error.ErrUnsupportCmd
      { inp := [], out := [[0x05, 0x00], [0x05, 0x07, 0x00, 0x01, 0, 0, 0, 0, 0, 0]],
        wleft := 6, closed := false } (by rfl) (by rfl),
   (tcpTask_stops_at_first_error recordingHandler (sampleServer [] [] MethodNone) ([], [])
      (sampleConn ([0x05, 0x01, 0x00] ++ connectRequestBytes) 8)).2.2
      { inp := connectRequestBytes, out := [[0x05, 0x00]], wleft := 7, closed := false }
      { Ver := 5, Cmd := 1, Rsv := 0, Atyp := 1, DstAddr := [0x7F, 0, 0, 1],
        DstPort := [0x00, 0x50] }
      { inp := [], out := [[0x05, 0x00]], wleft := 7, closed := false } (by rfl) (by rfl)⟩

/-- C6: the task of a received packet that parses to the datagram `d`, for every handler `h`:
when `d.Frag` is not 0x00 the task logs "Ignore frag" and ends with `s` and `w` untouched,
UDPHandle not invoked; when `d.Frag` is 0x00 the task is one call of UDPHandle with the sender
address and `d`.  With the handler that records its invocations, the record after the task is
empty in the first case and the single pair (sender, `d`) in the second. -/
theorem udpTask_frag_gate {W : Type} (h : Handler W) (s : Server) (w : W) (addr : UDPAddr)
    (b : List Nat) (d : Datagram) (hd : NewDatagramFromBytes b = .ok d) :
    (d.Frag ≠ 0x00 →
        ListenAndServe.udpTask h s w addr b = (s, w, [LogLine.ignoreFrag d.Frag])
        ∧ (ListenAndServe.udpTask recordingHandler s ([], []) addr b).2.1 = ([], []))
    ∧ (d.Frag = 0x00 →
        ListenAndServe.udpTask h s w addr b =
          ((h.UDPHandle s w addr d).2.1, (h.UDPHandle s w addr d).2.2,
           match (h.UDPHandle s w addr d).1 with
           | some err => [LogLine.error err]
           | none => [])
        ∧ (ListenAndServe.udpTask recordingHandler s ([], []) addr b).2.1
            = ([], [(addr, d)])) := by
  constructor
  · intro hf
    simp [ListenAndServe.udpTask, hd, hf]
  · intro hf
    constructor
    · simp only [ListenAndServe.udpTask, hd, hf]
      rcases hh : h.UDPHandle s w addr d with ⟨e, s1, w1⟩
      cases e <;> simp
    · simp [ListenAndServe.udpTask, hd, hf, recordingHandler]

/-- Witness of C6: the packet `0000 01 01 08080808 0035 AA` with FRAG = 0x01 is dropped, the
same packet with FRAG = 0x00 is handed to UDPHandle once. -/
theorem udpTask_frag_gate_witness :
    NewDatagramFromBytes [0, 0, 0x01, 0x01, 8, 8, 8, 8, 0x00, 0x35, 0xAA]
        = .ok { Rsv := [0, 0], Frag := 1, Atyp := 1, DstAddr := [8, 8, 8, 8],
                DstPort := [0x00, 0x35], Data := [0xAA] }
    ∧ ListenAndServe.udpTask recordingHandler (sampleServer [] [] MethodNone) ([], [])
        { text := "10.0.0.9:4000" } [0, 0, 0x01, 0x01, 8, 8, 8, 8, 0x00, 0x35, 0xAA]
        = (sampleServer [] [] MethodNone, ([], []), [LogLine.ignoreFrag 1])
    ∧ NewDatagramFromBytes [0, 0, 0x00, 0x01, 8, 8, 8, 8, 0x00, 0x35, 0xAA]
        = .ok { Rsv := [0, 0], Frag := 0, Atyp := 1, DstAddr := [8, 8, 8, 8],
                DstPort := [0x00, 0x35], Data := [0xAA] }
    ∧ (ListenAndServe.udpTask recordingHandler (sampleServer [] [] MethodNone) ([], [])
        { text := "10.0.0.9:4000" } [0, 0, 0x00, 0x01, 8, 8, 8, 8, 0x00, 0x35, 0xAA]).2.1
        = ([], [({ text := "10.0.0.9:4000" },
                 { Rsv := [0, 0], Frag := 0, Atyp := 1, DstAddr := [8, 8, 8, 8],
                   DstPort := [0x00, 0x35], Data := [0xAA] })]) :=
  ⟨by rfl,
   ((udpTask_frag_gate recordingHandler (sampleServer [] [] MethodNone) ([], [])
      { text := "10.0.0.9:4000" } [0, 0, 0x01, 0x01, 8, 8, 8, 8, 0x00, 0x35, 0xAA]
      { Rsv := [0, 0], Frag := 1, Atyp := 1, DstAddr := [8, 8, 8, 8], DstPort := [0x00, 0x35],
        Data := [0xAA] } (by rfl)).1 (by decide)).1,
   by rfl,
   ((udpTask_frag_gate recordingHandler (sampleServer [] [] MethodNone) ([], [])
      { text := "10.0.0.9:4000" } [0, 0, 0x00, 0x01, 8, 8, 8, 8, 0x00, 0x35, 0xAA]
      { Rsv := [0, 0], Frag := 0, Atyp := 1, DstAddr := [8, 8, 8, 8], DstPort := [0x00, 0x35],
        Data := [0xAA] } (by rfl)).2 (by rfl)).2⟩

theorem Conn.Write_inp (c : Conn) (b : List Nat) : (c.Write b).2.inp = c.inp := by
  cases c with
  | mk inp out wleft closed =>
    cases wleft <;> simp [Conn.Write]

theorem Negotiate_noauth_inp (s : Server) (rw : Conn) (rq : NegotiationRequest)
    (rest : List Nat) (hm : s.Method = MethodNone)
    (h1 : NewNegotiationRequestFrom rw.inp = (.ok rq, rest)) :
    (Negotiate s rw).2.inp = rest := by
  have hne : ¬ (MethodNone = MethodUsernamePassword) := by decide
  simp only [Negotiate, h1, hm, NegotiationReply.WriteTo, NewNegotiationReply, if_neg hne]
  cases hg : !(rq.Methods.foldl (fun got m => if m = MethodNone then true else got) false)
  · simp only [Bool.false_eq_true, if_false]
    rcases rw with ⟨inp, out, wleft, closed⟩
    cases wleft <;> simp [Conn.Write]
  · simp only [if_true]
    rcases rw with ⟨inp, out, wleft, closed⟩
    cases wleft with
    | zero => simp [Conn.Write]
    | succ n => cases n <;> simp [Conn.Write]

/-- C10: when NewClassicServer succeeds with server `srv`: its Method is UserPass exactly when
username and password are both non-empty and NoAuth otherwise; UserName and Password are the
given ones; SupportedCommands is [CONNECT, UDP ASSOCIATE]; and when username or password is
empty, Negotiate on `srv` reads the negotiation request only (no username/password frame) and,
the request offering NoAuth and a write succeeding, replies `05 00` and returns no error. -/
theorem NewClassicServer_method (env : ClassicEnv) (addr ip : String)
    (username password : List Nat) (tcpTimeout udpTimeout : Int) (srv : Server)
    (h : NewClassicServer env addr ip username password tcpTimeout udpTimeout = .ok srv) :
    (srv.Method = MethodUsernamePassword ↔ (username ≠ [] ∧ password ≠ []))
    ∧ (¬ (username ≠ [] ∧ password ≠ []) → srv.Method = MethodNone)
    ∧ srv.UserName = username ∧ srv.Password = password
    ∧ srv.SupportedCommands = [CmdConnect, CmdUDP]
    ∧ (¬ (username ≠ [] ∧ password ≠ []) →
        ∀ (rw : Conn) (rq : NegotiationRequest) (rest : List Nat),
          NewNegotiationRequestFrom rw.inp = (.ok rq, rest) →
          (Negotiate srv rw).2.inp = rest
          ∧ (MethodNone ∈ rq.Methods → 1 ≤ rw.wleft →
              Negotiate srv rw = (none, { inp := rest, out := rw.out ++ [[0x05, 0x00]],
                                          wleft := rw.wleft - 1, closed := rw.closed }))) := by
  have hsrv : srv.Method
        = (if username ≠ [] ∧ password ≠ [] then MethodUsernamePassword else MethodNone)
      ∧ srv.UserName = username ∧ srv.Password = password
      ∧ srv.SupportedCommands = [CmdConnect, CmdUDP] := by
    unfold NewClassicServer at h
    cases h1 : env.SplitHostPort addr with
    | error e => simp [h1] at h
    | ok hp =>
      obtain ⟨host, p⟩ := hp
      cases h2 : env.Resolve "udp" (env.JoinHostPort ip p) with
      | error e => simp [h1, h2] at h
      | ok saddr =>
        cases h3 : env.NewLocalCache 0 with
        | some e => simp [h1, h2, h3] at h
        | none =>
          cases h4 : env.NewLocalCache 1 with
          | some e => simp [h1, h2, h3, h4] at h
          | none =>
            cases h5 : env.NewLocalCache 2 with
            | some e => simp [h1, h2, h3, h4, h5] at h
            | none =>
              simp only [h1, h2, h3, h4, h5] at h
              injection h with h
              subst h
              exact ⟨rfl, rfl, rfl, rfl⟩
  obtain ⟨hM, hU, hP, hC⟩ := hsrv
  have hnone : ¬ (username ≠ [] ∧ password ≠ []) → srv.Method = MethodNone := by
    intro hb; rw [hM, if_neg hb]
  refine ⟨?_, hnone, hU, hP, hC, ?_⟩
  · constructor
    · intro hm
      by_contra hb
      rw [hnone hb] at hm
      exact absurd hm (by decide)
    · intro hb
      rw [hM, if_pos hb]
  · intro hb rw rq rest h1
    have hm := hnone hb
    refine ⟨Negotiate_noauth_inp srv rw rq rest hm h1, ?_⟩
    intro hoff hw
    have hgot : rq.Methods.foldl (fun got m => if m = MethodNone then true else got) false
        = true := by
      rw [got_eq_true_iff]; exact hoff
    have hne : ¬ (MethodNone = MethodUsernamePassword) := by decide
    simp only [Negotiate, h1, hm, hgot, NegotiationReply.WriteTo, NewNegotiationReply,
      Bool.not_true, Bool.false_eq_true, if_false, if_neg hne]
    rw [Conn.Write_of_pos _ _ (by simpa using hw)]
    simp [Ver, MethodNone]

/-- Witness of C10: built with username "user" and an empty password, the server has Method
NoAuth, and on the input `05 01 00` followed by a CONNECT request it replies `05 00` and leaves
the request unread. -/
theorem NewClassicServer_method_witness :
    NewClassicServer sampleClassicEnv "0.0.0.0:1080" "127.0.0.1" userOctets [] 0 60
        = .ok { sampleServer userOctets [] MethodNone with
                Addr := "0.0.0.0:1080", ServerAddr := "127.0.0.1:1080", UDPTimeout := 60 }
    ∧ ({ sampleServer userOctets [] MethodNone with
          Addr := "0.0.0.0:1080", ServerAddr := "127.0.0.1:1080", UDPTimeout := 60 } : Server).Method
        = MethodNone
    ∧ Negotiate { sampleServer userOctets [] MethodNone with
                  Addr := "0.0.0.0:1080", ServerAddr := "127.0.0.1:1080", UDPTimeout := 60 }
        (sampleConn ([0x05, 0x01, 0x00] ++ connectRequestBytes) 1)
        = (none, { inp := connectRequestBytes, out := [[0x05, 0x00]], wleft := 0,
                   closed := false }) :=
  ⟨by rfl,
   (NewClassicServer_method sampleClassicEnv "0.0.0.0:1080" "127.0.0.1" userOctets [] 0 60
      _ (by rfl)).2.1 (by decide),
   ((NewClassicServer_method sampleClassicEnv "0.0.0.0:1080" "127.0.0.1" userOctets [] 0 60
      _ (by rfl)).2.2.2.2.2 (by decide)
      (sampleConn ([0x05, 0x01, 0x00] ++ connectRequestBytes) 1)
      { Ver := 5, Methods := [0] } connectRequestBytes (by rfl)).2 (by decide) (by decide)⟩

/-! ### Lemmas on the world -/

theorem World.Write_dials (w : World) (rc : Nat) (data : List Nat) :
    (w.Write rc data).2.dials = w.dials := by
  unfold World.Write
  split
  · rfl
  · split <;> rfl

theorem World.Write_pumps (w : World) (rc : Nat) (data : List Nat) :
    (w.Write rc data).2.pumps = w.pumps := by
  unfold World.Write
  split
  · rfl
  · split <;> rfl

theorem World.Write_chans (w : World) (rc : Nat) (data : List Nat) :
    (w.Write rc data).2.chans = w.chans := by
  unfold World.Write
  split
  · rfl
  · split <;> rfl

theorem World.CloseSock_dials (w : World) (rc : Nat) : (w.CloseSock rc).dials = w.dials := by
  unfold World.CloseSock
  split <;> rfl

theorem World.CloseSock_pumps (w : World) (rc : Nat) : (w.CloseSock rc).pumps = w.pumps := by
  unfold World.CloseSock
  split <;> rfl

theorem World.Write_with_chans (w : World) (chans : List Bool) (rc : Nat) (data : List Nat) :
    ({ w with chans := chans } : World).Write rc data
      = ((w.Write rc data).1, { (w.Write rc data).2 with chans := chans }) := by
  unfold World.Write
  simp only
  split
  · rfl
  · split <;> rfl

theorem UDPHandle.send_nil (src : String) (w : World) (ue : UDPExchange) (data : List Nat) :
    UDPHandle.send src none w ue data = w.Write ue.RemoteConn data := by
  unfold UDPHandle.send
  simp only [World.chanReady, Bool.false_eq_true, if_false]
  rcases hw : w.Write ue.RemoteConn data with ⟨e, w1⟩
  cases e <;> rfl

theorem UDPHandle.signal_unlimited (s : Server) (src : String) (hl : s.LimitUDP = false) :
    UDPHandle.signal s src = .ok none := by
  simp [UDPHandle.signal, hl]

theorem DialUDP_pumps (env : Env) (w : World) (laddr raddr : String) :
    (DialUDP env w laddr raddr).2.pumps = w.pumps := by
  unfold DialUDP
  simp only
  split <;> rfl

theorem UDPHandle.dial_pumps (env : Env) (w : World) (laddr dst : String) :
    (UDPHandle.dial env w laddr dst).2.pumps = w.pumps := by
  unfold UDPHandle.dial
  rcases h1 : DialUDP env w laddr dst with ⟨r1, w1⟩
  have hp1 : w1.pumps = w.pumps := by
    have := DialUDP_pumps env w laddr dst
    rw [h1] at this; exact this
  cases r1 with
  | ok rc => simpa using hp1
  | error err =>
    simp only
    split
    · simpa using hp1
    · rcases h2 : DialUDP env w1 "" dst with ⟨r2, w2⟩
      have hp2 : w2.pumps = w1.pumps := by
        have := DialUDP_pumps env w1 "" dst
        rw [h2] at this; exact this
      cases r2 <;> simp [hp2, hp1]

theorem UDPHandle.establish_pumps (s : Server) (w : World) (addr : UDPAddr) (d : Datagram)
    (src dst : String) (ch : Option Nat) (rc : Nat) (laddr : String) :
    ∃ ps, (UDPHandle.establish s w addr d src dst ch rc laddr).2.2.pumps = w.pumps ++ ps
      ∧ ∀ p ∈ ps, p.ch = ch := by
  unfold UDPHandle.establish
  rcases hs : (if laddr = "" then s.UDPSrc.Set (src ++ dst) (w.LocalAddr rc) (24 * Hour)
      else (none, s.UDPSrc)) with ⟨e1, us⟩
  cases e1 with
  | some err => exact ⟨[], by simp, by simp⟩
  | none =>
    simp only
    rcases hsend : UDPHandle.send src ch w { ClientAddr := addr, RemoteConn := rc } d.Data
      with ⟨e2, w2⟩
    have hp2 : w2.pumps = w.pumps := by
      unfold UDPHandle.send at hsend
      split at hsend
      · injection hsend with _ hw; rw [← hw]
      · rcases hwr : w.Write rc d.Data with ⟨e3, w3⟩
        have hp3 := World.Write_pumps w rc d.Data
        rw [hwr] at hp3
        simp only [hwr] at hsend
        cases e3 <;> (injection hsend with _ hw; rw [← hw]; exact hp3)
    cases e2 with
    | some err => exact ⟨[], by simp [World.CloseSock_pumps, hp2], by simp⟩
    | none =>
      simp only
      rcases hx : s.UDPExchanges.SetEncoded (src ++ dst)
        (encodeUDPExchange { ClientAddr := addr, RemoteConn := rc }) (24 * Hour) with ⟨e4, ux⟩
      cases e4 with
      | some err => exact ⟨[], by simp [hp2], by simp⟩
      | none =>
        exact ⟨[{ ue := { ClientAddr := addr, RemoteConn := rc }, dst := dst, ch := ch }],
          by simp [hp2], by simp⟩

theorem UDPHandle_pumps (env : Env) (s : Server) (w : World) (addr : UDPAddr) (d : Datagram)
    (ch : Option Nat) (hsig : UDPHandle.signal s addr.String = .ok ch) :
    ∃ ps, (UDPHandle env s w addr d).2.2.pumps = w.pumps ++ ps ∧ ∀ p ∈ ps, p.ch = ch := by
  unfold UDPHandle
  simp only [hsig]
  cases hx : s.UDPExchanges.Get (addr.String ++ env.Address d) with
  | ok iue =>
    simp only
    cases ha : iue.assertUDPExchange with
    | error text => exact ⟨[], by simp, by simp⟩
    | ok ue =>
      simp only
      rcases hsend : UDPHandle.send addr.String ch w ue d.Data with ⟨e2, w2⟩
      have hp2 : w2.pumps = w.pumps := by
        unfold UDPHandle.send at hsend
        split at hsend
        · injection hsend with _ hw; rw [← hw]
        · rcases hwr : w.Write ue.RemoteConn d.Data with ⟨e3, w3⟩
          have hp3 := World.Write_pumps w ue.RemoteConn d.Data
          rw [hwr] at hp3
          simp only [hwr] at hsend
          cases e3 <;> (injection hsend with _ hw; rw [← hw]; exact hp3)
      exact ⟨[], by simp [hp2], by simp⟩
  | error err =>
    simp only
    split
    · exact ⟨[], by simp, by simp⟩
    · cases hh : UDPHandle.hint s (addr.String ++ env.Address d) with
      | error e => exact ⟨[], by simp, by simp⟩
      | ok laddr =>
        simp only
        rcases hd : UDPHandle.dial env w laddr (env.Address d) with ⟨r, w1⟩
        have hp1 : w1.pumps = w.pumps := by
          have := UDPHandle.dial_pumps env w laddr (env.Address d)
          rw [hd] at this; exact this
        cases r with
        | error e => exact ⟨[], by simp [hp1], by simp⟩
        | ok p =>
          obtain ⟨rc, la⟩ := p
          simp only
          obtain ⟨ps, h1, h2⟩ := UDPHandle.establish_pumps s w1 addr d addr.String
            (env.Address d) ch rc la
          exact ⟨ps, by rw [h1, hp1], h2⟩

/-- C5: with LimitUDP = true, for every source `addr` and datagram `d`: when the lookup of
`addr.String()` in AssociatedUDP misses, UDPHandle returns the error "This udp address ... is
not associated with tcp" and leaves the server (all three tables) and the world (sockets,
dials, pumps) as they were; and when UDPHandle returns no error or changes anything in the
world (a dial, a socket, a payload written), AssociatedUDP holds an entry under
`addr.String()`. -/
theorem UDPHandle_limit_needs_association (env : Env) (s : Server) (w : World) (addr : UDPAddr)
    (d : Datagram) (hl : s.LimitUDP = true) :
    (s.AssociatedUDP.Get addr.String = .error CacheError.NotFound →
        UDPHandle env s w addr d =
          (some (Error.Errorf ("This udp address " ++ addr.String
                                ++ " is not associated with tcp")), s, w))
    ∧ (((UDPHandle env s w addr d).1 = none ∨ (UDPHandle env s w addr d).2.2 ≠ w) →
        ∃ ch ttl, (addr.String, ch, ttl) ∈ s.AssociatedUDP.items) := by
  constructor
  · intro hmiss
    simp [UDPHandle, UDPHandle.signal, hl, hmiss, IsNotFoundError]
  · intro hres
    cases hg : s.AssociatedUDP.Get addr.String with
    | error err =>
      exfalso
      have hu : UDPHandle env s w addr d =
          (some (if IsNotFoundError err then
                   Error.Errorf ("This udp address " ++ addr.String
                                  ++ " is not associated with tcp")
                 else Error.Errorf ("failed to get from AssociatedUDP cache: " ++ err.text)),
           s, w) := by
        cases hnf : IsNotFoundError err <;>
          simp [UDPHandle, UDPHandle.signal, hl, hg, hnf]
      rw [hu] at hres
      simp at hres
    | ok ch =>
      unfold LocalCache.Get at hg
      split at hg
      · cases hg
      · unfold LocalCache.lookup at hg
        cases hf : s.AssociatedUDP.items.find? (fun e => e.1 == addr.String) with
        | none => simp [hf] at hg
        | some e =>
          have hmem := List.mem_of_find?_eq_some hf
          have hkey := List.find?_some hf
          simp only [beq_iff_eq] at hkey
          refine ⟨e.2.1, e.2.2, ?_⟩
          rw [← hkey]
          exact hmem

/-- Witness of C5: LimitUDP on, empty AssociatedUDP, a datagram from "10.0.0.9:4000". -/
theorem UDPHandle_limit_needs_association_witness :
    ({ sampleServer [] [] MethodNone with LimitUDP := true } : Server).LimitUDP = true
    ∧ ({ sampleServer [] [] MethodNone with LimitUDP := true } : Server).AssociatedUDP.Get
        sampleClient.String = .error CacheError.NotFound
    ∧ UDPHandle sampleEnv { sampleServer [] [] MethodNone with LimitUDP := true } emptyWorld
        sampleClient sampleDatagram
        = (some (Error.Errorf "This udp address 10.0.0.9:4000 is not associated with tcp"),
           { sampleServer [] [] MethodNone with LimitUDP := true }, emptyWorld) :=
  ⟨by rfl, by rfl,
   (UDPHandle_limit_needs_association sampleEnv
      { sampleServer [] [] MethodNone with LimitUDP := true } emptyWorld sampleClient
      sampleDatagram (by rfl)).1 (by rfl)⟩

/-! ### The exchange hit of `UDPHandle` -/

theorem UDPHandle_unlimited_hit_pointer (env : Env) (s : Server) (w : World) (addr : UDPAddr)
    (d : Datagram) (E : UDPExchange) (hl : s.LimitUDP = false)
    (hit : s.UDPExchanges.Get (addr.String ++ env.Address d) = .ok (ExchangeInterface.pointer E)) :
    UDPHandle env s w addr d
      = ((w.Write E.RemoteConn d.Data).1, s, (w.Write E.RemoteConn d.Data).2) := by
  simp only [UDPHandle, UDPHandle.signal_unlimited s addr.String hl, hit,
    ExchangeInterface.assertUDPExchange, UDPHandle.send_nil]

theorem UDPHandle_hit_object_panics (env : Env) (s : Server) (w : World) (addr : UDPAddr)
    (d : Datagram) (ch : Option Nat) (a : UDPAddr)
    (hsig : UDPHandle.signal s addr.String = .ok ch)
    (hit : s.UDPExchanges.Get (addr.String ++ env.Address d) = .ok (ExchangeInterface.object a)) :
    UDPHandle env s w addr d = (some (Error.Panic conversionPanicText), s, w) := by
  simp only [UDPHandle, hsig, hit, ExchangeInterface.assertUDPExchange]

theorem UDPHandle_unlimited_nil_handle (env : Env) (s : Server) (w : World) (addr : UDPAddr)
    (d : Datagram) (hl : s.LimitUDP = false) :
    UDPHandle.signal s addr.String = .ok none
    ∧ (∀ (w1 : World) (ue : UDPExchange) (data : List Nat),
        UDPHandle.send addr.String none w1 ue data = w1.Write ue.RemoteConn data)
    ∧ (∃ ps, (UDPHandle env s w addr d).2.2.pumps = w.pumps ++ ps
        ∧ ∀ p ∈ ps, p.ch = none ∧ ∀ w1 : World, Pump.select w1 p = PumpBranch.default) := by
  have hsig := UDPHandle.signal_unlimited s addr.String hl
  refine ⟨hsig, fun w1 ue data => UDPHandle.send_nil _ w1 ue data, ?_⟩
  obtain ⟨ps, h1, h2⟩ := UDPHandle_pumps env s w addr d none hsig
  refine ⟨ps, h1, fun p hp => ⟨h2 p hp, fun w1 => ?_⟩⟩
  simp [Pump.select, h2 p hp, World.chanReady]

theorem LocalCache.lookup_Set_self {V : Type} (c : LocalCache V) (key : String) (v : V)
    (ttl : Nat) (h : c.failSet = false) : (c.Set key v ttl).2.lookup key = some (v, ttl) := by
  simp [LocalCache.Set, h, LocalCache.lookup]

theorem UDPHandle.establish_stores_object (s : Server) (w : World) (addr : UDPAddr)
    (d : Datagram) (src dst : String) (ch : Option Nat) (rc : Nat) (laddr : String)
    (hn : (UDPHandle.establish s w addr d src dst ch rc laddr).1 = none) :
    (UDPHandle.establish s w addr d src dst ch rc laddr).2.1.UDPExchanges
        = { s.UDPExchanges with
            items := (src ++ dst, ExchangeInterface.object addr, 24 * Hour)
                       :: s.UDPExchanges.items.filter (fun e => e.1 != src ++ dst) }
    ∧ (UDPHandle.establish s w addr d src dst ch rc laddr).2.1.LimitUDP = s.LimitUDP
    ∧ (UDPHandle.establish s w addr d src dst ch rc laddr).2.1.AssociatedUDP = s.AssociatedUDP := by
  unfold UDPHandle.establish at hn ⊢
  rcases hs : (if laddr = "" then s.UDPSrc.Set (src ++ dst) (w.LocalAddr rc) (24 * Hour)
      else (none, s.UDPSrc)) with ⟨e1, us⟩
  rw [hs] at hn
  cases e1 with
  | some err => simp at hn
  | none =>
    simp only at hn ⊢
    rcases hsend : UDPHandle.send src ch w { ClientAddr := addr, RemoteConn := rc } d.Data
      with ⟨e2, w2⟩
    rw [hsend] at hn
    cases e2 with
    | some err => simp at hn
    | none =>
      simp only at hn ⊢
      by_cases hf : s.UDPExchanges.failSet = true
      · simp [LocalCache.SetEncoded, encodeUDPExchange, LocalCache.Set, hf] at hn
      · simp [LocalCache.SetEncoded, encodeUDPExchange, LocalCache.Set, hf]

theorem UDPHandle_created_exchange_panics (env : Env) (s : Server) (w : World)
    (addr : UDPAddr) (d : Datagram) (hl : s.LimitUDP = false)
    (hmiss : s.UDPExchanges.Get (addr.String ++ env.Address d) = .error CacheError.NotFound)
    (hn : (UDPHandle env s w addr d).1 = none) :
    UDPHandle env (UDPHandle env s w addr d).2.1 (UDPHandle env s w addr d).2.2 addr d
      = (some (Error.Panic conversionPanicText), (UDPHandle env s w addr d).2.1,
         (UDPHandle env s w addr d).2.2) := by
  have hfg : s.UDPExchanges.failGet = false := by
    cases hf : s.UDPExchanges.failGet
    · rfl
    · simp [LocalCache.Get, hf] at hmiss
  have hsig := UDPHandle.signal_unlimited s addr.String hl
  have hfacts : (UDPHandle env s w addr d).2.1.LimitUDP = false
      ∧ (UDPHandle env s w addr d).2.1.UDPExchanges.Get (addr.String ++ env.Address d)
          = .ok (ExchangeInterface.object addr) := by
    have hU : UDPHandle env s w addr d =
        (match UDPHandle.hint s (addr.String ++ env.Address d) with
         | .error err => (some err, s, w)
         | .ok laddr =>
           match UDPHandle.dial env w laddr (env.Address d) with
           | (.error err, w) => (some err, s, w)
           | (.ok (rc, laddr), w) =>
             UDPHandle.establish s w addr d addr.String (env.Address d) none rc laddr) := by
      simp only [UDPHandle, hsig, hmiss, IsNotFoundError, Bool.not_true, Bool.false_eq_true,
        if_false]
    rw [hU] at hn ⊢
    cases hh : UDPHandle.hint s (addr.String ++ env.Address d) with
    | error err => simp [hh] at hn
    | ok laddr =>
      simp only [hh] at hn ⊢
      rcases hd : UDPHandle.dial env w laddr (env.Address d) with ⟨r, w1⟩
      rw [hd] at hn
      cases r with
      | error err => simp at hn
      | ok p =>
        obtain ⟨rc, la⟩ := p
        simp only at hn ⊢
        obtain ⟨hx, hlim, _⟩ := UDPHandle.establish_stores_object s w1 addr d addr.String
          (env.Address d) none rc la hn
        refine ⟨by rw [hlim]; exact hl, ?_⟩
        rw [hx]
        simp [LocalCache.Get, hfg, LocalCache.lookup]
  exact UDPHandle_hit_object_panics env _ _ addr d none addr
    (UDPHandle.signal_unlimited _ addr.String hfacts.1) hfacts.2

/-- C8 (the code departs from the claim): with LimitUDP = false, the first datagram from
"10.0.0.9:4000" to "8.8.8.8:53" dials a socket, writes the payload `AA` to it and stores the
exchange, which the table holds as a generic map; on the second datagram of the same flow
UDPExchanges holds an entry under `addr.String() ∥ d.Address()`, and UDPHandle does not write
`d.Data` to the exchange's socket and return the result: the unchecked assertion of line 390
panics, the socket having received `AA` once only. -/
theorem UDPHandle_exchange_hit_panics :
    sampleFirstDatagram
      = (none,
         { sampleServer [] [] MethodNone with
           UDPExchanges :=
             { items := [("10.0.0.9:40008.8.8.8:53", ExchangeInterface.object sampleClient,
                          24 * Hour)],
               failGet := false, failSet := false, failDelete := false },
           UDPSrc :=
             { items := [("10.0.0.9:40008.8.8.8:53", "0.0.0.0:5000", 24 * Hour)],
               failGet := false, failSet := false, failDelete := false } },
         { chans := [], socks := [{ sampleSock with sent := [[0xAA]] }],
           dials := [("", "8.8.8.8:53")],
           pumps := [{ ue := { ClientAddr := sampleClient, RemoteConn := 0 },
                       dst := "8.8.8.8:53", ch := none }] })
    ∧ sampleFirstDatagram.2.1.LimitUDP = false
    ∧ sampleFirstDatagram.2.1.UDPExchanges.Get
        (sampleClient.String ++ sampleEnv.Address sampleDatagram)
        = .ok (ExchangeInterface.object sampleClient)
    ∧ UDPHandle sampleEnv sampleFirstDatagram.2.1 sampleFirstDatagram.2.2 sampleClient
        sampleDatagram
        = (some (Error.Panic conversionPanicText), sampleFirstDatagram.2.1,
           sampleFirstDatagram.2.2) := by
  refine ⟨by rfl, by rfl, by rfl, by rfl⟩

/-! ### The UDP ASSOCIATE branch of `TCPHandle` -/

theorem TCPHandle_udp_associate_set_fails (env : Env) (s : Server) (w : World) (c c1 : Conn)
    (r : Request) (caddr : UDPAddr) (hcmd : r.Cmd = CmdUDP)
    (hudp : env.UDP r c s.ServerAddr = (.ok caddr, c1)) :
    TCPHandle env s w c r
      = (some (Error.Errorf
                "failed to set AssociatedUDP cache: json: unsupported type: chan uint8"),
         s, { w with chans := w.chans ++ [true] }, c1) := by
  have hnc2 : ¬ (CmdUDP = CmdConnect) := by decide
  simp [TCPHandle, hnc2, hcmd, TCPHandle.associate, hudp, World.makeChan,
    LocalCache.SetEncoded, encodeChan, World.closeChan, CacheError.text]

theorem TCPHandle.release_delete_fails (d : Draining)
    (hf : d.s.AssociatedUDP.failDelete = true) :
    (TCPHandle.release d).1 = none
    ∧ (TCPHandle.release d).2.1.AssociatedUDP = d.s.AssociatedUDP := by
  simp [TCPHandle.release, LocalCache.Delete, hf]

/-- C7 (the code departs from the claim): on the UDP ASSOCIATE request
`05 03 00 01 00000000 0000`, the Succeeded reply sent and the client's UDP address being
"10.0.0.9:4000", TCPHandle makes the handle (channel 1) but cannot store it: `Set` fails on a
channel, so TCPHandle returns the error "failed to set AssociatedUDP cache: ..." at once,
with the handle closed, the client connection not drained (its input is unread) and
AssociatedUDP as before, without an entry under "10.0.0.9:4000". -/
theorem TCPHandle_udp_associate_cannot_store :
    TCPHandle sampleEnv sampleAssocServer sampleAssocWorld (sampleConn [1, 2, 3] 1)
        sampleAssociateRequest
      = (some (Error.Errorf
                "failed to set AssociatedUDP cache: json: unsupported type: chan uint8"),
         sampleAssocServer,
         { chans := [false, true], socks := [], dials := [], pumps := [] },
         { inp := [1, 2, 3], out := [[0x05, 0x00, 0x00, 0x01, 0x7F, 0, 0, 1, 0x04, 0x38]],
           wleft := 0, closed := false })
    ∧ sampleAssocServer.AssociatedUDP.lookup sampleClient.String = none := by
  refine ⟨by rfl, by rfl⟩

/-! ### Lemmas on dialing and on the source hint -/

theorem UDPHandle.send_dials (src : String) (ch : Option Nat) (w : World) (ue : UDPExchange)
    (data : List Nat) : (UDPHandle.send src ch w ue data).2.dials = w.dials := by
  unfold UDPHandle.send
  split
  · rfl
  · rcases hwr : w.Write ue.RemoteConn data with ⟨e, w1⟩
    have h := World.Write_dials w ue.RemoteConn data
    rw [hwr] at h
    cases e <;> exact h

theorem UDPHandle.establish_dials (s : Server) (w : World) (addr : UDPAddr) (d : Datagram)
    (src dst : String) (ch : Option Nat) (rc : Nat) (laddr : String) :
    (UDPHandle.establish s w addr d src dst ch rc laddr).2.2.dials = w.dials := by
  unfold UDPHandle.establish
  rcases hs : (if laddr = "" then s.UDPSrc.Set (src ++ dst) (w.LocalAddr rc) (24 * Hour)
      else (none, s.UDPSrc)) with ⟨e1, us⟩
  cases e1 with
  | some err => rfl
  | none =>
    simp only
    rcases hsend : UDPHandle.send src ch w { ClientAddr := addr, RemoteConn := rc } d.Data
      with ⟨e2, w2⟩
    have hd2 : w2.dials = w.dials := by
      have := UDPHandle.send_dials src ch w { ClientAddr := addr, RemoteConn := rc } d.Data
      rw [hsend] at this; exact this
    cases e2 with
    | some err => simp [World.CloseSock_dials, hd2]
    | none =>
      simp only
      rcases hx : s.UDPExchanges.SetEncoded (src ++ dst)
        (encodeUDPExchange { ClientAddr := addr, RemoteConn := rc }) (24 * Hour) with ⟨e4, ux⟩
      cases e4 <;> simp [hd2]

theorem UDPHandle.establish_UDPSrc (s : Server) (w : World) (addr : UDPAddr) (d : Datagram)
    (src dst : String) (ch : Option Nat) (rc : Nat) (laddr : String) :
    (UDPHandle.establish s w addr d src dst ch rc laddr).2.1.UDPSrc
      = (if laddr = "" then (s.UDPSrc.Set (src ++ dst) (w.LocalAddr rc) (24 * Hour)).2
         else s.UDPSrc) := by
  unfold UDPHandle.establish
  rcases hs : (if laddr = "" then s.UDPSrc.Set (src ++ dst) (w.LocalAddr rc) (24 * Hour)
      else (none, s.UDPSrc)) with ⟨e1, us⟩
  have hus : us = (if laddr = "" then (s.UDPSrc.Set (src ++ dst) (w.LocalAddr rc)
      (24 * Hour)).2 else s.UDPSrc) := by
    by_cases hl : laddr = ""
    · simp only [hl, if_true] at hs ⊢
      rw [hs]
    · simp only [if_neg hl] at hs ⊢
      injection hs with _ h2
      exact h2.symm
  cases e1 with
  | some err => exact hus
  | none =>
    simp only
    rcases hsend : UDPHandle.send src ch w { ClientAddr := addr, RemoteConn := rc } d.Data
      with ⟨e2, w2⟩
    cases e2 with
    | some err => exact hus
    | none =>
      simp only
      rcases hx : s.UDPExchanges.SetEncoded (src ++ dst)
        (encodeUDPExchange { ClientAddr := addr, RemoteConn := rc }) (24 * Hour) with ⟨e4, ux⟩
      cases e4 <;> exact hus

theorem World.LocalAddr_addSock (w : World) (sk : Sock) :
    (w.addSock sk).LocalAddr w.socks.length = sk.laddr := by
  simp [World.LocalAddr, World.addSock]

/-- C9: UDPHandle on a datagram that passes the association check and misses in UDPExchanges,
with key `k = addr.String() ∥ d.Address()` and `laddr` the hint stored in UDPSrc under `k`, or
the empty text when there is none.  The first dial is from `laddr`.  When it fails with a text
that has neither "address already in use" nor "can't assign requested address", that error is
returned, the server (all three tables) is unchanged and no other dial is made.  When it fails
with one of the two texts, a second dial from the empty local address is made; its error, if
any, is returned with the server unchanged; when it succeeds, UDPSrc becomes the result of
`Set(k, local address of the new socket, 24 hours)`.  When the first dial succeeds, no second
dial is made, and UDPSrc becomes the result of that `Set` when `laddr` is empty and is left
unchanged when `laddr` is not empty. -/
theorem UDPHandle_exchange_miss (env : Env) (s : Server) (w : World) (addr : UDPAddr)
    (d : Datagram) (laddr : String)
    (hpass : s.LimitUDP = false ∨ ∃ h, s.AssociatedUDP.Get addr.String = .ok h)
    (hmiss : s.UDPExchanges.Get (addr.String ++ env.Address d) = .error CacheError.NotFound)
    (hhint : s.UDPSrc.Get (addr.String ++ env.Address d) = .ok laddr
      ∨ (s.UDPSrc.Get (addr.String ++ env.Address d) = .error CacheError.NotFound
          ∧ laddr = "")) :
    (∀ text, env.dialer (w.logDial laddr (env.Address d)) laddr (env.Address d) = .error text →
        stringsContains text "address already in use" = false →
        stringsContains text "can't assign requested address" = false →
        UDPHandle env s w addr d
          = (some (Error.Dial text), s, w.logDial laddr (env.Address d)))
    ∧ (∀ text, env.dialer (w.logDial laddr (env.Address d)) laddr (env.Address d) = .error text →
        (stringsContains text "address already in use" = true
          ∨ stringsContains text "can't assign requested address" = true) →
        (∀ text2,
            env.dialer ((w.logDial laddr (env.Address d)).logDial "" (env.Address d)) ""
              (env.Address d) = .error text2 →
            UDPHandle env s w addr d
              = (some (Error.Dial text2), s,
                 (w.logDial laddr (env.Address d)).logDial "" (env.Address d)))
        ∧ (∀ sk,
            env.dialer ((w.logDial laddr (env.Address d)).logDial "" (env.Address d)) ""
              (env.Address d) = .ok sk →
            (UDPHandle env s w addr d).2.2.dials
              = w.dials ++ [(laddr, env.Address d), ("", env.Address d)]
            ∧ (UDPHandle env s w addr d).2.1.UDPSrc
              = (s.UDPSrc.Set (addr.String ++ env.Address d) sk.laddr (24 * Hour)).2))
    ∧ (∀ sk, env.dialer (w.logDial laddr (env.Address d)) laddr (env.Address d) = .ok sk →
        (UDPHandle env s w addr d).2.2.dials = w.dials ++ [(laddr, env.Address d)]
        ∧ (laddr = "" →
            (UDPHandle env s w addr d).2.1.UDPSrc
              = (s.UDPSrc.Set (addr.String ++ env.Address d) sk.laddr (24 * Hour)).2)
        ∧ (laddr ≠ "" → (UDPHandle env s w addr d).2.1.UDPSrc = s.UDPSrc)) := by
  obtain ⟨ch, hsig⟩ : ∃ ch, UDPHandle.signal s addr.String = .ok ch := by
    rcases hpass with hl | ⟨h, hg⟩
    · exact ⟨none, UDPHandle.signal_unlimited s _ hl⟩
    · cases hl : s.LimitUDP
      · exact ⟨none, UDPHandle.signal_unlimited s _ hl⟩
      · exact ⟨some h, by simp [UDPHandle.signal, hl, hg]⟩
  have hh : UDPHandle.hint s (addr.String ++ env.Address d) = .ok laddr := by
    rcases hhint with hg | ⟨hg, hl⟩
    · simp [UDPHandle.hint, hg]
    · simp [UDPHandle.hint, hg, hl, IsNotFoundError]
  have hU : UDPHandle env s w addr d =
      (match UDPHandle.dial env w laddr (env.Address d) with
       | (.error err, w) => (some err, s, w)
       | (.ok (rc, laddr), w) =>
         UDPHandle.establish s w addr d addr.String (env.Address d) ch rc laddr) := by
    simp only [UDPHandle, hsig, hmiss, IsNotFoundError, hh, Bool.not_true, Bool.false_eq_true,
      if_false]
  refine ⟨?_, ?_, ?_⟩
  · intro text hd hA hB
    rw [hU]
    simp [UDPHandle.dial, DialUDP, hd, hA, hB]
  · intro text hd hAB
    have hcond : (!stringsContains text "address already in use"
        && !stringsContains text "can't assign requested address") = false := by
      rcases hAB with h | h <;> simp [h]
    refine ⟨?_, ?_⟩
    · intro text2 hd2
      rw [hU]
      simp [UDPHandle.dial, DialUDP, hd, hcond, hd2]
    · intro sk hd2
      have hU2 : UDPHandle env s w addr d
          = UDPHandle.establish s
              (((w.logDial laddr (env.Address d)).logDial "" (env.Address d)).addSock sk)
              addr d addr.String (env.Address d) ch
              ((w.logDial laddr (env.Address d)).logDial "" (env.Address d)).socks.length
              "" := by
        rw [hU]
        simp [UDPHandle.dial, DialUDP, hd, hcond, hd2]
      rw [hU2, UDPHandle.establish_dials, UDPHandle.establish_UDPSrc,
        World.LocalAddr_addSock]
      simp [World.addSock, World.logDial]
  · intro sk hd
    have hU2 : UDPHandle env s w addr d
        = UDPHandle.establish s ((w.logDial laddr (env.Address d)).addSock sk)
            addr d addr.String (env.Address d) ch
            (w.logDial laddr (env.Address d)).socks.length laddr := by
      rw [hU]
      simp [UDPHandle.dial, DialUDP, hd]
    rw [hU2, UDPHandle.establish_dials, UDPHandle.establish_UDPSrc, World.LocalAddr_addSock]
    refine ⟨by simp [World.addSock, World.logDial], ?_, ?_⟩
    · intro hl; simp [hl]
    · intro hl; simp [hl]

/-- Witness of C9: the hint "0.0.0.0:7000" is stored for ("10.0.0.9:4000", "8.8.8.8:53"); the
dial from it fails with "bind: address already in use", the dial from the empty local address
gives a socket bound to "0.0.0.0:5000", and UDPSrc then holds "0.0.0.0:5000" under the key. -/
theorem UDPHandle_exchange_miss_witness :
    (sampleHintServer.LimitUDP = false
      ∨ ∃ h, sampleHintServer.AssociatedUDP.Get sampleClient.String = .ok h)
    ∧ sampleHintServer.UDPExchanges.Get (sampleClient.String ++ sampleEnv.Address sampleDatagram)
        = .error CacheError.NotFound
    ∧ sampleHintServer.UDPSrc.Get (sampleClient.String ++ sampleEnv.Address sampleDatagram)
        = .ok "0.0.0.0:7000"
    ∧ (UDPHandle sampleEnv sampleHintServer emptyWorld sampleClient sampleDatagram).2.2.dials
        = [("0.0.0.0:7000", "8.8.8.8:53"), ("", "8.8.8.8:53")]
    ∧ (UDPHandle sampleEnv sampleHintServer emptyWorld sampleClient sampleDatagram).2.1.UDPSrc
        = { items := [("10.0.0.9:40008.8.8.8:53", "0.0.0.0:5000", 24 * Hour)],
            failGet := false, failSet := false, failDelete := false } :=
  ⟨Or.inl (by rfl), by rfl, by rfl,
   ((((UDPHandle_exchange_miss sampleEnv sampleHintServer emptyWorld sampleClient
        sampleDatagram "0.0.0.0:7000" (Or.inl (by rfl)) (by rfl) (Or.inl (by rfl))).2.1
        "bind: address already in use" (by rfl) (Or.inl (by rfl))).2
        { sampleSock with raddr := "8.8.8.8:53" } (by rfl))).1,
   ((((UDPHandle_exchange_miss sampleEnv sampleHintServer emptyWorld sampleClient
        sampleDatagram "0.0.0.0:7000" (Or.inl (by rfl)) (by rfl) (Or.inl (by rfl))).2.1
        "bind: address already in use" (by rfl) (Or.inl (by rfl))).2
        { sampleSock with raddr := "8.8.8.8:53" } (by rfl))).2⟩

end Socks5
